import Mathlib

/-!
Verification development for the AI_OVERCLOCK repository.

The repository persists telemetry snapshots and LLM recommendation records
as JSON files (src/data_manager.py), captures hardware telemetry
(src/system_monitor.py) and queries a local language model
(src/llm_interaction.py).  This file gives a shallow embedding of those
components and proves the specification claims about them.

Modelling conventions:
- Python dicts holding JSON data are modelled by the mutual inductive
  `JsonV` / `JsonL` / `JsonO` (values, arrays, objects as ordered key-value
  lists, mirroring Python's insertion-ordered dicts).
- The recommendations directory is a finite map from identifier to stored
  document (`FS`); a document is either a parsable record or unparsable
  content (`Doc.bad`, standing for a file whose JSON fails to decode).
- `datetime.now()` values are passed in explicitly: one string rendered at
  second resolution (strftime "%Y%m%d%H%M%S", used for identifiers) and one
  ISO-8601 string (isoformat, used for timestamps).  Python compares these
  strings lexicographically by code point, which coincides with the order
  on `List Char`, so timestamp comparisons are stated on `String.data`.
- The metrics log file is a `List Char`; appending with a single `write`
  call adds the fully serialized line plus terminator in one step.
-/

/-! ### JSON values, mirroring what `json.dumps` / `json.load` handle -/

mutual
inductive JsonV where
  | null
  | bool (b : Bool)
  | num (n : Int)
  | str (s : String)
  | arr (xs : JsonL)
  | obj (kvs : JsonO)
deriving DecidableEq
inductive JsonL where
  | nil
  | cons (hd : JsonV) (tl : JsonL)
deriving DecidableEq
inductive JsonO where
  | nil
  | cons (k : String) (v : JsonV) (tl : JsonO)
deriving DecidableEq
end

/-- Membership lookup on a JSON object, as Python `d[k]` / `k in d`:
the first binding of the key wins (keys are unique in decoded JSON). -/
def objLookup : JsonO → String → Option JsonV
  | JsonO.nil, _ => none
  | JsonO.cons k' v t, k => if k' = k then some v else objLookup t k

/-- Assignment `d[k] = v` on a Python dict: an existing key keeps its
position and gets the new value, a new key is appended at the end. -/
def objSet : JsonO → String → JsonV → JsonO
  | JsonO.nil, k, v => JsonO.cons k v JsonO.nil
  | JsonO.cons k' v' t, k, v =>
      if k' = k then JsonO.cons k v t else JsonO.cons k' v' (objSet t k v)

/-- Python `d.update(ctx)`: assign every binding of `ctx` into `d`,
in the insertion order of `ctx`. -/
def objUpdate : JsonO → JsonO → JsonO
  | d, JsonO.nil => d
  | d, JsonO.cons k v t => objUpdate (objSet d k v) t

/-- Truthiness of a Python dict: empty dicts are falsy. -/
def JsonO.isEmpty : JsonO → Bool
  | JsonO.nil => true
  | JsonO.cons _ _ _ => false

/-! ### Serialization (`json.dumps` with its default separators) -/

/-- Decimal digit characters. -/
def digitChar (d : Nat) : Char :=
  match d with
  | 0 => '0' | 1 => '1' | 2 => '2' | 3 => '3' | 4 => '4'
  | 5 => '5' | 6 => '6' | 7 => '7' | 8 => '8' | _ => '9'

/-- Hexadecimal digit characters (for `\uXXXX` escapes). -/
def hexDigit (d : Nat) : Char :=
  match d with
  | 0 => '0' | 1 => '1' | 2 => '2' | 3 => '3' | 4 => '4'
  | 5 => '5' | 6 => '6' | 7 => '7' | 8 => '8' | 9 => '9'
  | 10 => 'a' | 11 => 'b' | 12 => 'c' | 13 => 'd' | 14 => 'e' | _ => 'f'

/-- Digits of a positive number, least significant first; the first
argument is fuel, and `n` itself is always enough fuel since a number has
at most `n` digits. -/
def natDigitsRev : Nat → Nat → List Char
  | 0, _ => []
  | fuel + 1, n => if n = 0 then [] else digitChar (n % 10) :: natDigitsRev fuel (n / 10)

/-- Decimal rendering of a natural number. -/
def natRender (n : Nat) : List Char :=
  if n = 0 then ['0'] else (natDigitsRev n n).reverse

/-- Decimal rendering of an integer, as Python renders JSON numbers. -/
def intRender (i : Int) : List Char :=
  if i < 0 then '-' :: natRender i.natAbs else natRender i.natAbs

/-- Escaping of one character inside a JSON string literal, as
`json.dumps` does with its default `ensure_ascii` handling of control
characters. -/
def escChar (c : Char) : List Char :=
  if c = '"' then ['\\', '"']
  else if c = '\\' then ['\\', '\\']
  else if c = '\n' then ['\\', 'n']
  else if c = '\r' then ['\\', 'r']
  else if c = '\t' then ['\\', 't']
  else if c = '\x08' then ['\\', 'b']
  else if c = '\x0c' then ['\\', 'f']
  else if c.toNat < 32 then ['\\', 'u', '0', '0', hexDigit (c.toNat / 16), hexDigit (c.toNat % 16)]
  else [c]

/-- Escaping of a character sequence. -/
def escList : List Char → List Char
  | [] => []
  | c :: t => escChar c ++ escList t

/-- Rendering of a JSON string literal: quotes around the escaped body. -/
def strRender (s : String) : List Char :=
  '"' :: escList s.data ++ ['"']

mutual
/-- Compact serialization of a JSON value, as `json.dumps` with the default
separators (", " between items, ": " after keys) and no indentation. -/
def dumps : JsonV → List Char
  | JsonV.null => ['n', 'u', 'l', 'l']
  | JsonV.bool true => ['t', 'r', 'u', 'e']
  | JsonV.bool false => ['f', 'a', 'l', 's', 'e']
  | JsonV.num n => intRender n
  | JsonV.str s => strRender s
  | JsonV.arr xs => '[' :: dumpsList xs ++ [']']
  | JsonV.obj kvs => '\x7b' :: dumpsObj kvs ++ ['\x7d']
/-- Serialization of array elements, separated by ", ". -/
def dumpsList : JsonL → List Char
  | JsonL.nil => []
  | JsonL.cons x JsonL.nil => dumps x
  | JsonL.cons x (JsonL.cons y t) => dumps x ++ [',', ' '] ++ dumpsList (JsonL.cons y t)
/-- Serialization of object entries, separated by ", ". -/
def dumpsObj : JsonO → List Char
  | JsonO.nil => []
  | JsonO.cons k v JsonO.nil => strRender k ++ [':', ' '] ++ dumps v
  | JsonO.cons k v (JsonO.cons k' v' t) =>
      strRender k ++ [':', ' '] ++ dumps v ++ [',', ' '] ++ dumpsObj (JsonO.cons k' v' t)
end

/-! ### DataManager: the recommendation record store (src/data_manager.py) -/

/-- Recommendation Record, the JSON document written by
`save_recommendation` and mutated by `update_recommendation_status`.
`user_notes` and `last_updated` are absent until first set. -/
structure RecDoc where
  id : String
  timestamp : String
  user_goal : String
  mining_algorithm : String
  system_snapshot_at_recommendation : JsonV
  llm_recommendation_text : String
  applied_status : String
  actual_performance_after_apply : JsonO
  user_notes : Option String
  last_updated : Option String
deriving DecidableEq

/-- One stored file in the recommendations directory: either a document
that parses as a Recommendation Record, or content `json.load` rejects. -/
inductive Doc where
  | ok (r : RecDoc)
  | bad
deriving DecidableEq

/-- The recommendations directory: filenames (keyed by record identifier,
the filename being recommendation_<id>.json) paired with file contents,
in directory-listing order. -/
abbrev FS := List (String × Doc)

/-- Existence and content of the file for a given identifier
(`os.path.exists` plus reading it). -/
def fsLookup : FS → String → Option Doc
  | [], _ => none
  | (k', d) :: t, k => if k' = k then some d else fsLookup t k

/-- Writing the file for a given identifier: overwrites the existing file
in place, or creates a new one. -/
def fsWrite : FS → String → Doc → FS
  | [], k, d => [(k, d)]
  | (k', d') :: t, k, d =>
      if k' = k then (k, d) :: t else (k', d') :: fsWrite t k d

/-- DataManager.save_recommendation.  `idNow` is `datetime.now()` rendered
at second resolution (the generated identifier) and `isoNow` the ISO
rendering used for the creation timestamp; the record is written with
initial status PENDING_USER_APPLY, an empty actual-performance mapping and
no notes or last-updated field. -/
def save_recommendation (idNow isoNow : String) (recommendation_text : String)
    (current_metrics : JsonV) (user_goal : String) (algorithm : String)
    (fs : FS) : String × FS :=
  let rec_id := idNow
  let rec_data : RecDoc :=
    { id := rec_id
      timestamp := isoNow
      user_goal := user_goal
      mining_algorithm := algorithm
      system_snapshot_at_recommendation := current_metrics
      llm_recommendation_text := recommendation_text
      applied_status := "PENDING_USER_APPLY"
      actual_performance_after_apply := JsonO.nil
      user_notes := none
      last_updated := none }
  (rec_id, fsWrite fs rec_id (Doc.ok rec_data))

/-- Outcome reported by `update_recommendation_status` (the function
returns None in Python; the distinct printed diagnostics are the
observable report). -/
inductive UpdOutcome where
  | updated
  | notFound
  | loadError
deriving DecidableEq

/-- DataManager.update_recommendation_status: no file for the identifier
reports not-found and changes nothing; otherwise read-modify-write sets
the status, overwrites the actual-performance mapping only when the
argument is truthy (present and non-empty), overwrites the notes only when
non-empty, and stamps last_updated with the current time.  A file whose
content fails to decode makes `json.load` raise inside the `try`, which
is caught and leaves the file unchanged. -/
def update_recommendation_status (rec_id status : String)
    (actual_metrics : Option JsonO) (notes : String) (isoNow : String)
    (fs : FS) : FS × UpdOutcome :=
  match fsLookup fs rec_id with
  | none => (fs, UpdOutcome.notFound)
  | some Doc.bad => (fs, UpdOutcome.loadError)
  | some (Doc.ok data0) =>
    let data1 := { data0 with applied_status := status }
    let data2 :=
      match actual_metrics with
      | some m => if m.isEmpty then data1 else { data1 with actual_performance_after_apply := m }
      | none => data1
    let data3 := if notes = "" then data2 else { data2 with user_notes := some notes }
    let data4 := { data3 with last_updated := some isoNow }
    (fsWrite fs rec_id (Doc.ok data4), UpdOutcome.updated)

/-- DataManager.load_recommendation: None when the file is absent or its
JSON fails to decode. -/
def load_recommendation (rec_id : String) (fs : FS) : Option RecDoc :=
  match fsLookup fs rec_id with
  | some (Doc.ok r) => some r
  | some Doc.bad => none
  | none => none

/-- Sort key used by load_all_recommendations: the record's creation
timestamp compared as Python compares strings, code point by code point. -/
def tsKey (r : RecDoc) : List Char :=
  r.timestamp.data

/-- Descending comparison on records by creation timestamp: `recLe a b`
says `a` may be placed before `b` (most recent first). -/
def recLe (a b : RecDoc) : Prop :=
  tsKey b ≤ tsKey a

instance : DecidableRel recLe :=
  fun a b => inferInstanceAs (Decidable (tsKey b ≤ tsKey a))

/-- DataManager.load_all_recommendations: walk the directory listing,
load each recommendation file (skipping, with a warning, any whose JSON
fails to decode), then sort by creation timestamp, most recent first.
Python's stable `list.sort(key=..., reverse=True)` is realised by a stable
insertion sort on the descending relation. -/
def load_all_recommendations (fs : FS) : List RecDoc :=
  List.insertionSort recLe
    ((fs.map Prod.fst).filterMap (fun rec_id => load_recommendation rec_id fs))

/-- Parsable records of the store, in directory-listing order. -/
def parsables (fs : FS) : List RecDoc :=
  fs.filterMap (fun kd => match kd.2 with | Doc.ok r => some r | Doc.bad => none)

/-- Arguments of one DataManager.log_metrics call: the capture timestamp,
the metrics snapshot, and the optional extra context mapping. -/
structure LogCall where
  nowIso : String
  metrics : JsonV
  context : Option JsonO
deriving DecidableEq

/-- The Metrics Log Entry a log_metrics call serializes: timestamp and
metrics fields, then `log_entry.update(context)` when the context is
truthy (present and non-empty). -/
def logEntry (c : LogCall) : JsonV :=
  let base := JsonO.cons "timestamp" (JsonV.str c.nowIso) (JsonO.cons "metrics" c.metrics JsonO.nil)
  match c.context with
  | none => JsonV.obj base
  | some ctx => if ctx.isEmpty then JsonV.obj base else JsonV.obj (objUpdate base ctx)

/-- DataManager.log_metrics: one `f.write` of the fully serialized entry
plus the terminating newline, appended to the log file. -/
def log_metrics (c : LogCall) (log_file : List Char) : List Char :=
  log_file ++ dumps (logEntry c) ++ ['\n']

/-- A sequence of log_metrics calls against the same log file. -/
def runLog (calls : List LogCall) (log_file : List Char) : List Char :=
  calls.foldl (fun f c => log_metrics c f) log_file

/-! ### Store lemmas -/

/-- Reading back the file just written for an identifier yields that file. -/
theorem fsLookup_fsWrite_self (fs : FS) (k : String) (d : Doc) :
    fsLookup (fsWrite fs k d) k = some d := by
  induction fs with
  | nil => simp [fsWrite, fsLookup]
  | cons hd t ih =>
    obtain ⟨k', d'⟩ := hd
    by_cases h : k' = k
    · simp [fsWrite, fsLookup, h]
    · simp [fsWrite, fsLookup, h, ih]

/-- Writing the same filename twice keeps only the second content: the
store after both writes is the store after the second alone. -/
theorem fsWrite_fsWrite (fs : FS) (k : String) (d1 d2 : Doc) :
    fsWrite (fsWrite fs k d1) k d2 = fsWrite fs k d2 := by
  induction fs with
  | nil => simp [fsWrite]
  | cons hd t ih =>
    obtain ⟨k', d'⟩ := hd
    by_cases h : k' = k
    · simp [fsWrite, h]
    · simp [fsWrite, h, ih]

/-- Reading a different filename than the one just written is unaffected
by the write. -/
theorem fsLookup_fsWrite_other (fs : FS) (k k' : String) (d : Doc) (h : k' ≠ k) :
    fsLookup (fsWrite fs k d) k' = fsLookup fs k' := by
  have h2 : ¬(k = k') := Ne.symm h
  induction fs with
  | nil => simp [fsWrite, fsLookup, h2]
  | cons hd t ih =>
    obtain ⟨k0, d0⟩ := hd
    by_cases h0 : k0 = k
    · subst h0
      simp [fsWrite, fsLookup, h2]
    · by_cases h1 : k0 = k'
      · simp [fsWrite, fsLookup, h0, h1, h]
      · simp [fsWrite, fsLookup, h0, h1, ih]

/-- Keys of a JSON object, in insertion order. -/
def objKeys : JsonO → List String
  | JsonO.nil => []
  | JsonO.cons k _ t => k :: objKeys t

/-- Assigning a key and reading it back yields the assigned value. -/
theorem objLookup_objSet_self : ∀ (d : JsonO) (k : String) (v : JsonV),
    objLookup (objSet d k v) k = some v
  | JsonO.nil, k, v => by simp [objSet, objLookup]
  | JsonO.cons k' v' t, k, v => by
    by_cases h : k' = k
    · simp [objSet, objLookup, h]
    · simp [objSet, objLookup, h, objLookup_objSet_self t k v]

/-- Assigning one key leaves the lookup of any other key unchanged. -/
theorem objLookup_objSet_other : ∀ (d : JsonO) (k k' : String) (v : JsonV),
    k' ≠ k → objLookup (objSet d k v) k' = objLookup d k'
  | JsonO.nil, k, k', v, h => by
    simp [objSet, objLookup, Ne.symm h]
  | JsonO.cons k0 v0 t, k, k', v, h => by
    by_cases h0 : k0 = k
    · subst h0
      simp [objSet, objLookup, Ne.symm h]
    · by_cases h1 : k0 = k'
      · simp [objSet, objLookup, h0, h1, h]
      · simp [objSet, objLookup, h0, h1, objLookup_objSet_other t k k' v h]

/-- Merging a mapping that does not contain a key leaves that key's
lookup unchanged. -/
theorem objLookup_objUpdate_not_mem : ∀ (ctx : JsonO) (d : JsonO) (k : String),
    k ∉ objKeys ctx → objLookup (objUpdate d ctx) k = objLookup d k
  | JsonO.nil, d, k, _ => by simp [objUpdate]
  | JsonO.cons k0 v0 t, d, k, h => by
    simp only [objKeys, List.mem_cons] at h
    push_neg at h
    obtain ⟨hk0, ht⟩ := h
    rw [objUpdate, objLookup_objUpdate_not_mem t _ _ ht,
      objLookup_objSet_other _ _ _ _ hk0]

/-- Merging a duplicate-free mapping makes every key of the mapping read
back as the mapping's value for it. -/
theorem objLookup_objUpdate_mem : ∀ (ctx : JsonO) (d : JsonO) (k : String) (v : JsonV),
    (objKeys ctx).Nodup → objLookup ctx k = some v →
    objLookup (objUpdate d ctx) k = some v
  | JsonO.nil, d, k, v, _, h => by simp [objLookup] at h
  | JsonO.cons k0 v0 t, d, k, v, hnd, h => by
    simp only [objKeys, List.nodup_cons] at hnd
    obtain ⟨hk0, hndt⟩ := hnd
    by_cases hkk : k0 = k
    · subst hkk
      simp only [objLookup, if_pos rfl] at h
      cases h
      rw [objUpdate, objLookup_objUpdate_not_mem t _ _ hk0, objLookup_objSet_self]
    · rw [objLookup, if_neg hkk] at h
      rw [objUpdate]
      exact objLookup_objUpdate_mem t _ _ _ hndt h

/-! ### Claim C1: identifier collision within one second is last-write-wins -/

/-- C1: two save_recommendation calls that observe the same
second-resolution timestamp (`tid`) return the same identifier, the
second document replaces the first in the store, the subsequent load
returns the second call's text, snapshot, goal and algorithm, and both
calls complete normally (they return identifiers, no error outcome). -/
theorem save_recommendation_same_second_last_write_wins
    (tid iso1 iso2 text1 text2 goal1 goal2 algo1 algo2 : String)
    (snap1 snap2 : JsonV) (fs : FS) :
    (save_recommendation tid iso2 text2 snap2 goal2 algo2
        (save_recommendation tid iso1 text1 snap1 goal1 algo1 fs).2).1
      = (save_recommendation tid iso1 text1 snap1 goal1 algo1 fs).1
    ∧ (save_recommendation tid iso2 text2 snap2 goal2 algo2
        (save_recommendation tid iso1 text1 snap1 goal1 algo1 fs).2).2
      = fsWrite fs tid (Doc.ok
          { id := tid, timestamp := iso2, user_goal := goal2,
            mining_algorithm := algo2,
            system_snapshot_at_recommendation := snap2,
            llm_recommendation_text := text2,
            applied_status := "PENDING_USER_APPLY",
            actual_performance_after_apply := JsonO.nil,
            user_notes := none, last_updated := none })
    ∧ load_recommendation
        (save_recommendation tid iso2 text2 snap2 goal2 algo2
          (save_recommendation tid iso1 text1 snap1 goal1 algo1 fs).2).1
        (save_recommendation tid iso2 text2 snap2 goal2 algo2
          (save_recommendation tid iso1 text1 snap1 goal1 algo1 fs).2).2
      = some { id := tid, timestamp := iso2, user_goal := goal2,
               mining_algorithm := algo2,
               system_snapshot_at_recommendation := snap2,
               llm_recommendation_text := text2,
               applied_status := "PENDING_USER_APPLY",
               actual_performance_after_apply := JsonO.nil,
               user_notes := none, last_updated := none } := by
  refine ⟨rfl, ?_, ?_⟩
  · simp [save_recommendation, fsWrite_fsWrite]
  · simp [save_recommendation, load_recommendation, fsLookup_fsWrite_self]

/-! ### Claim C4: create followed by load returns the exact record -/

/-- C4: save_recommendation followed immediately by load_recommendation
of the returned identifier yields a record with status PENDING_USER_APPLY,
exactly the text, snapshot, goal and algorithm passed in, an empty
actual-performance mapping, and no last_updated (nor user_notes) field. -/
theorem save_then_load_returns_exact_record
    (idNow isoNow text goal algo : String) (snap : JsonV) (fs : FS) :
    load_recommendation (save_recommendation idNow isoNow text snap goal algo fs).1
        (save_recommendation idNow isoNow text snap goal algo fs).2
      = some { id := idNow, timestamp := isoNow, user_goal := goal,
               mining_algorithm := algo,
               system_snapshot_at_recommendation := snap,
               llm_recommendation_text := text,
               applied_status := "PENDING_USER_APPLY",
               actual_performance_after_apply := JsonO.nil,
               user_notes := none, last_updated := none } := by
  simp [save_recommendation, load_recommendation, fsLookup_fsWrite_self]

/-! ### Claim C3: update of a missing identifier reports not-found and
changes nothing -/

/-- C3: when no document exists for the identifier,
update_recommendation_status reports the not-found condition and returns
the store exactly as it was: no file is created or modified. -/
theorem update_missing_id_reports_not_found_and_preserves_store
    (rec_id status notes isoNow : String) (actual_metrics : Option JsonO)
    (fs : FS) (h : fsLookup fs rec_id = none) :
    update_recommendation_status rec_id status actual_metrics notes isoNow fs
      = (fs, UpdOutcome.notFound) := by
  simp [update_recommendation_status, h]

/-- Concrete instance of C3: updating an identifier absent from a
one-record store leaves the store untouched and reports not-found. -/
theorem update_missing_id_witness :
    update_recommendation_status "19990101000000" "APPLIED" none "" "1999-01-01T00:00:01"
        [("20240101000000", Doc.ok
          { id := "20240101000000", timestamp := "2024-01-01T00:00:00",
            user_goal := "g", mining_algorithm := "a",
            system_snapshot_at_recommendation := JsonV.null,
            llm_recommendation_text := "t",
            applied_status := "PENDING_USER_APPLY",
            actual_performance_after_apply := JsonO.nil,
            user_notes := none, last_updated := none })]
      = ([("20240101000000", Doc.ok
          { id := "20240101000000", timestamp := "2024-01-01T00:00:00",
            user_goal := "g", mining_algorithm := "a",
            system_snapshot_at_recommendation := JsonV.null,
            llm_recommendation_text := "t",
            applied_status := "PENDING_USER_APPLY",
            actual_performance_after_apply := JsonO.nil,
            user_notes := none, last_updated := none })], UpdOutcome.notFound) :=
  update_missing_id_reports_not_found_and_preserves_store _ _ _ _ _ _ (by decide)

/-! ### Claim C2 (amended) and Claim C9: update of an existing record -/

/-- Post-state of updating an existing record `r`: the spec-level facts
observable through a subsequent load. -/
def UpdatePost (rec_id status : String) (actual_metrics : Option JsonO)
    (notes isoNow : String) (fs : FS) (r : RecDoc) : Prop :=
  (update_recommendation_status rec_id status actual_metrics notes isoNow fs).2
      = UpdOutcome.updated
  ∧ ∃ r', load_recommendation rec_id
        (update_recommendation_status rec_id status actual_metrics notes isoNow fs).1
        = some r'
      ∧ r'.applied_status = status
      ∧ (∀ m, actual_metrics = some m → m.isEmpty = false →
          r'.actual_performance_after_apply = m)
      ∧ (∀ m, actual_metrics = some m → m.isEmpty = true →
          r'.actual_performance_after_apply = r.actual_performance_after_apply)
      ∧ (actual_metrics = none →
          r'.actual_performance_after_apply = r.actual_performance_after_apply)
      ∧ (notes ≠ "" → r'.user_notes = some notes)
      ∧ (notes = "" → r'.user_notes = r.user_notes)
      ∧ r'.last_updated = some isoNow
      ∧ (∀ t, r'.last_updated = some t → r.timestamp.data < t.data)
      ∧ r'.id = r.id
      ∧ r'.timestamp = r.timestamp
      ∧ r'.user_goal = r.user_goal
      ∧ r'.mining_algorithm = r.mining_algorithm
      ∧ r'.system_snapshot_at_recommendation = r.system_snapshot_at_recommendation
      ∧ r'.llm_recommendation_text = r.llm_recommendation_text

/-- C2 (amended): updating an existing record merges the status
(overwrite), the actual-metrics mapping (overwrite only when a non-empty
one is provided, otherwise — omitted or empty — unchanged), the notes
(overwrite only when non-empty), stamps last_updated with the update time
(greater than the creation timestamp when the update happens later), and
leaves every other field unchanged. -/
theorem update_existing_id_merges_fields
    (rec_id status notes isoNow : String) (actual_metrics : Option JsonO)
    (fs : FS) (r : RecDoc)
    (h : fsLookup fs rec_id = some (Doc.ok r))
    (hts : r.timestamp.data < isoNow.data) :
    UpdatePost rec_id status actual_metrics notes isoNow fs r := by
  rcases actual_metrics with _ | m
  · refine ⟨by unfold update_recommendation_status; rw [h], ?_⟩
    by_cases hn : notes = ""
    · refine ⟨{ r with applied_status := status, last_updated := some isoNow },
        ?_, rfl, ?_, ?_, fun _ => rfl, fun hc => absurd hn hc, fun _ => rfl, rfl,
        ?_, rfl, rfl, rfl, rfl, rfl, rfl⟩
      · unfold update_recommendation_status
        rw [h]
        simp [load_recommendation, fsLookup_fsWrite_self, hn]
      · intro m hm
        exact Option.noConfusion hm
      · intro m hm
        exact Option.noConfusion hm
      · intro t ht
        exact Option.some.inj ht ▸ hts
    · refine ⟨{ r with applied_status := status, user_notes := some notes, last_updated := some isoNow },
        ?_, rfl, ?_, ?_, fun _ => rfl, fun _ => rfl, fun hc => absurd hc hn, rfl,
        ?_, rfl, rfl, rfl, rfl, rfl, rfl⟩
      · unfold update_recommendation_status
        rw [h]
        simp [load_recommendation, fsLookup_fsWrite_self, hn]
      · intro m hm
        exact Option.noConfusion hm
      · intro m hm
        exact Option.noConfusion hm
      · intro t ht
        exact Option.some.inj ht ▸ hts
  · cases m with
    | nil =>
      refine ⟨by unfold update_recommendation_status; rw [h], ?_⟩
      by_cases hn : notes = ""
      · refine ⟨{ r with applied_status := status, last_updated := some isoNow },
          ?_, rfl, ?_, fun _ _ _ => rfl, fun hc => Option.noConfusion hc,
          fun hc => absurd hn hc, fun _ => rfl, rfl,
          ?_, rfl, rfl, rfl, rfl, rfl, rfl⟩
        · unfold update_recommendation_status
          rw [h]
          simp [load_recommendation, fsLookup_fsWrite_self, hn, JsonO.isEmpty]
        · intro m hm hne
          rw [← Option.some.inj hm] at hne
          simp [JsonO.isEmpty] at hne
        · intro t ht
          exact Option.some.inj ht ▸ hts
      · refine ⟨{ r with applied_status := status, user_notes := some notes, last_updated := some isoNow },
          ?_, rfl, ?_, fun _ _ _ => rfl, fun hc => Option.noConfusion hc,
          fun _ => rfl, fun hc => absurd hc hn, rfl,
          ?_, rfl, rfl, rfl, rfl, rfl, rfl⟩
        · unfold update_recommendation_status
          rw [h]
          simp [load_recommendation, fsLookup_fsWrite_self, hn, JsonO.isEmpty]
        · intro m hm hne
          rw [← Option.some.inj hm] at hne
          simp [JsonO.isEmpty] at hne
        · intro t ht
          exact Option.some.inj ht ▸ hts
    | cons k0 v0 t0 =>
      refine ⟨by unfold update_recommendation_status; rw [h], ?_⟩
      by_cases hn : notes = ""
      · refine ⟨{ r with applied_status := status, actual_performance_after_apply := JsonO.cons k0 v0 t0, last_updated := some isoNow },
          ?_, rfl, ?_, ?_, fun hc => Option.noConfusion hc,
          fun hc => absurd hn hc, fun _ => rfl, rfl,
          ?_, rfl, rfl, rfl, rfl, rfl, rfl⟩
        · unfold update_recommendation_status
          rw [h]
          simp [load_recommendation, fsLookup_fsWrite_self, hn, JsonO.isEmpty]
        · intro m hm _
          exact Option.some.inj hm
        · intro m hm hemp
          rw [← Option.some.inj hm] at hemp
          simp [JsonO.isEmpty] at hemp
        · intro t ht
          exact Option.some.inj ht ▸ hts
      · refine ⟨{ r with applied_status := status, actual_performance_after_apply := JsonO.cons k0 v0 t0, user_notes := some notes, last_updated := some isoNow },
          ?_, rfl, ?_, ?_, fun hc => Option.noConfusion hc,
          fun _ => rfl, fun hc => absurd hc hn, rfl,
          ?_, rfl, rfl, rfl, rfl, rfl, rfl⟩
        · unfold update_recommendation_status
          rw [h]
          simp [load_recommendation, fsLookup_fsWrite_self, hn, JsonO.isEmpty]
        · intro m hm _
          exact Option.some.inj hm
        · intro m hm hemp
          rw [← Option.some.inj hm] at hemp
          simp [JsonO.isEmpty] at hemp
        · intro t ht
          exact Option.some.inj ht ▸ hts

/-- Sample stored record with a non-empty actual-performance mapping,
used to instantiate the update claims. -/
def sampleRec : RecDoc :=
  { id := "20240101000000", timestamp := "2024-01-01T00:00:00",
    user_goal := "efficiency", mining_algorithm := "Ethash",
    system_snapshot_at_recommendation := JsonV.null,
    llm_recommendation_text := "Core +100MHz",
    applied_status := "APPLIED",
    actual_performance_after_apply := JsonO.cons "x" (JsonV.num 1) JsonO.nil,
    user_notes := none, last_updated := none }

/-- Sample one-record store holding `sampleRec`. -/
def sampleFS : FS := [("20240101000000", Doc.ok sampleRec)]

/-- Counterexample to C2 as stated: `sampleRec` has a non-empty
actual-performance mapping; updating it while explicitly providing the
empty mapping does not make the stored mapping equal the provided (empty)
one — the old mapping survives, because the code tests the mapping's
truthiness rather than its presence. -/
theorem update_provided_empty_mapping_not_overwritten :
    (load_recommendation "20240101000000"
        (update_recommendation_status "20240101000000" "APPLIED" (some JsonO.nil) ""
          "2024-01-02T00:00:00" sampleFS).1).map
        (fun rr => rr.actual_performance_after_apply)
      = some (JsonO.cons "x" (JsonV.num 1) JsonO.nil)
    ∧ JsonO.cons "x" (JsonV.num 1) JsonO.nil ≠ JsonO.nil := by
  refine ⟨rfl, ?_⟩
  intro hc
  exact JsonO.noConfusion hc

/-- Concrete instance of the amended C2 at `sampleFS`, with a non-empty
provided mapping and non-empty notes. -/
theorem update_existing_id_merges_fields_witness :
    UpdatePost "20240101000000" "REVERTED"
      (some (JsonO.cons "y" (JsonV.num 2) JsonO.nil)) "stable"
      "2024-01-02T00:00:00" sampleFS sampleRec :=
  update_existing_id_merges_fields _ _ _ _ _ _ _ (by decide) (by decide)

/-! ### Claim C9: an explicitly provided empty mapping behaves as omitted -/

/-- C9: updating an existing record with an explicitly provided empty
actual-metrics mapping produces exactly the same store and outcome as
omitting the argument, and the record's actual-performance mapping is
unchanged — the guard tests the mapping's truthiness, so an empty mapping
is indistinguishable from an omitted one. -/
theorem update_empty_mapping_indistinguishable_from_omitted
    (rec_id status notes isoNow : String) (fs : FS) (r : RecDoc)
    (h : fsLookup fs rec_id = some (Doc.ok r)) :
    update_recommendation_status rec_id status (some JsonO.nil) notes isoNow fs
      = update_recommendation_status rec_id status none notes isoNow fs
    ∧ (load_recommendation rec_id
        (update_recommendation_status rec_id status (some JsonO.nil) notes isoNow fs).1).map
        (fun rr => rr.actual_performance_after_apply)
      = some r.actual_performance_after_apply := by
  constructor
  · unfold update_recommendation_status
    rw [h]
    rfl
  · unfold update_recommendation_status
    rw [h]
    by_cases hn : notes = ""
    · simp [load_recommendation, fsLookup_fsWrite_self, hn, JsonO.isEmpty]
    · simp [load_recommendation, fsLookup_fsWrite_self, hn, JsonO.isEmpty]

/-- Concrete instance of C9 at the sample store. -/
theorem update_empty_mapping_indistinguishable_from_omitted_witness :
    update_recommendation_status "20240101000000" "FAILED" (some JsonO.nil) "n"
        "2024-01-03T00:00:00" sampleFS
      = update_recommendation_status "20240101000000" "FAILED" none "n"
        "2024-01-03T00:00:00" sampleFS
    ∧ (load_recommendation "20240101000000"
        (update_recommendation_status "20240101000000" "FAILED" (some JsonO.nil) "n"
          "2024-01-03T00:00:00" sampleFS).1).map
        (fun rr => rr.actual_performance_after_apply)
      = some sampleRec.actual_performance_after_apply :=
  update_empty_mapping_indistinguishable_from_omitted _ _ _ _ _ _ (by decide)

/-! ### Claim C10: context keys override the timestamp and metrics fields -/

/-- C10: log_metrics builds the entry with "timestamp" and "metrics" and
then merges the context mapping over it, so a context containing either of
those keys replaces the capture timestamp or the snapshot in the entry
that gets serialized to the log line. -/
theorem log_context_overrides_entry_fields
    (now : String) (metrics : JsonV) (ctx : JsonO)
    (hnd : (objKeys ctx).Nodup) :
    (∀ v, objLookup ctx "timestamp" = some v →
      ∃ o, logEntry ⟨now, metrics, some ctx⟩ = JsonV.obj o
        ∧ objLookup o "timestamp" = some v)
    ∧ (∀ v, objLookup ctx "metrics" = some v →
      ∃ o, logEntry ⟨now, metrics, some ctx⟩ = JsonV.obj o
        ∧ objLookup o "metrics" = some v) := by
  constructor
  · intro v hv
    cases ctx with
    | nil => simp [objLookup] at hv
    | cons k0 v0 t =>
      exact ⟨_, rfl, objLookup_objUpdate_mem _ _ _ _ hnd hv⟩
  · intro v hv
    cases ctx with
    | nil => simp [objLookup] at hv
    | cons k0 v0 t =>
      exact ⟨_, rfl, objLookup_objUpdate_mem _ _ _ _ hnd hv⟩

/-- Concrete instance of C10: a context providing both keys makes the
logged entry carry the context's values for them. -/
theorem log_context_overrides_entry_fields_witness :
    (∃ o, logEntry ⟨"2024-01-01T00:00:00", JsonV.null,
        some (JsonO.cons "timestamp" (JsonV.str "override")
          (JsonO.cons "metrics" (JsonV.num 7) JsonO.nil))⟩ = JsonV.obj o
      ∧ objLookup o "timestamp" = some (JsonV.str "override"))
    ∧ (∃ o, logEntry ⟨"2024-01-01T00:00:00", JsonV.null,
        some (JsonO.cons "timestamp" (JsonV.str "override")
          (JsonO.cons "metrics" (JsonV.num 7) JsonO.nil))⟩ = JsonV.obj o
      ∧ objLookup o "metrics" = some (JsonV.num 7)) :=
  ⟨(log_context_overrides_entry_fields "2024-01-01T00:00:00" JsonV.null _
      (by decide)).1 _ (by decide),
   (log_context_overrides_entry_fields "2024-01-01T00:00:00" JsonV.null _
      (by decide)).2 _ (by decide)⟩

/-! ### Claim C5: each log_metrics call appends exactly one complete line -/

/-- The serialized characters never contain a raw newline: hex digits. -/
theorem hexDigit_ne_nl (d : Nat) : hexDigit d ≠ '\n' := by
  unfold hexDigit
  split <;> decide

/-- The serialized characters never contain a raw newline: decimal digits. -/
theorem digitChar_ne_nl (d : Nat) : digitChar d ≠ '\n' := by
  unfold digitChar
  split <;> decide

/-- Digit sequences contain no newline. -/
theorem natDigitsRev_nlFree : ∀ (fuel n : Nat), '\n' ∉ natDigitsRev fuel n := by
  intro fuel
  induction fuel with
  | zero => intro n; simp [natDigitsRev]
  | succ f ih =>
    intro n
    by_cases h : n = 0
    · simp [natDigitsRev, h]
    · simp only [natDigitsRev, if_neg h, List.mem_cons]
      rintro (hc | hc)
      · exact digitChar_ne_nl _ hc.symm
      · exact ih _ hc

/-- Rendered naturals contain no newline. -/
theorem natRender_nlFree (n : Nat) : '\n' ∉ natRender n := by
  unfold natRender
  by_cases h : n = 0
  · simp [h]
  · simp only [if_neg h, List.mem_reverse]
    exact natDigitsRev_nlFree n n

/-- Rendered integers contain no newline. -/
theorem intRender_nlFree (i : Int) : '\n' ∉ intRender i := by
  unfold intRender
  by_cases h : i < 0
  · simp only [if_pos h, List.mem_cons]
    rintro (hc | hc)
    · exact absurd hc (by decide)
    · exact natRender_nlFree _ hc
  · simp only [if_neg h]
    exact natRender_nlFree _

/-- Escaped characters contain no newline (a raw newline itself is
escaped to the two characters backslash and n). -/
theorem escChar_nlFree (c : Char) : '\n' ∉ escChar c := by
  unfold escChar
  split_ifs with h1 h2 h3 h4 h5 h6 h7 h8
  · decide
  · decide
  · decide
  · decide
  · decide
  · decide
  · decide
  · intro hmem
    simp only [List.mem_cons] at hmem
    rcases hmem with hc | hc | hc | hc | hc | hc | hc
    · exact absurd hc (by decide)
    · exact absurd hc (by decide)
    · exact absurd hc (by decide)
    · exact absurd hc (by decide)
    · exact hexDigit_ne_nl _ hc.symm
    · exact hexDigit_ne_nl _ hc.symm
    · exact absurd hc (List.not_mem_nil _)
  · intro hmem
    simp only [List.mem_cons] at hmem
    rcases hmem with hc | hc
    · exact h3 hc.symm
    · exact absurd hc (List.not_mem_nil _)

/-- Escaped character sequences contain no newline. -/
theorem escList_nlFree : ∀ (l : List Char), '\n' ∉ escList l
  | [] => by simp [escList]
  | c :: t => by
    simp only [escList, List.mem_append]
    rintro (hc | hc)
    · exact escChar_nlFree c hc
    · exact escList_nlFree t hc

/-- Rendered JSON string literals contain no newline. -/
theorem strRender_nlFree (s : String) : '\n' ∉ strRender s := by
  unfold strRender
  intro hmem
  rcases List.mem_cons.mp hmem with hc | hmem
  · exact absurd hc (by decide)
  · rcases List.mem_append.mp hmem with hc | hc
    · exact escList_nlFree _ hc
    · exact absurd hc (by decide)

mutual
/-- A serialized JSON value contains no newline character: the whole
entry is one line. -/
theorem dumps_nlFree : ∀ (j : JsonV), '\n' ∉ dumps j
  | JsonV.null => by decide
  | JsonV.bool true => by decide
  | JsonV.bool false => by decide
  | JsonV.num n => by
    unfold dumps
    exact intRender_nlFree n
  | JsonV.str s => by
    unfold dumps
    exact strRender_nlFree s
  | JsonV.arr xs => by
    unfold dumps
    intro hmem
    rcases List.mem_cons.mp hmem with hc | hmem
    · exact absurd hc (by decide)
    · rcases List.mem_append.mp hmem with hc | hc
      · exact dumpsList_nlFree xs hc
      · exact absurd hc (by decide)
  | JsonV.obj kvs => by
    unfold dumps
    intro hmem
    rcases List.mem_cons.mp hmem with hc | hmem
    · exact absurd hc (by decide)
    · rcases List.mem_append.mp hmem with hc | hc
      · exact dumpsObj_nlFree kvs hc
      · exact absurd hc (by decide)
/-- Serialized array elements contain no newline. -/
theorem dumpsList_nlFree : ∀ (xs : JsonL), '\n' ∉ dumpsList xs
  | JsonL.nil => by simp [dumpsList]
  | JsonL.cons x JsonL.nil => by
    unfold dumpsList
    exact dumps_nlFree x
  | JsonL.cons x (JsonL.cons y t) => by
    unfold dumpsList
    intro hmem
    rcases List.mem_append.mp hmem with hmem2 | hc
    · rcases List.mem_append.mp hmem2 with hc | hc
      · exact dumps_nlFree x hc
      · exact absurd hc (by decide)
    · exact dumpsList_nlFree (JsonL.cons y t) hc
/-- Serialized object entries contain no newline. -/
theorem dumpsObj_nlFree : ∀ (kvs : JsonO), '\n' ∉ dumpsObj kvs
  | JsonO.nil => by simp [dumpsObj]
  | JsonO.cons k v JsonO.nil => by
    unfold dumpsObj
    intro hmem
    rcases List.mem_append.mp hmem with hmem2 | hc
    · rcases List.mem_append.mp hmem2 with hc | hc
      · exact strRender_nlFree k hc
      · exact absurd hc (by decide)
    · exact dumps_nlFree v hc
  | JsonO.cons k v (JsonO.cons k' v' t) => by
    unfold dumpsObj
    intro hmem
    rcases List.mem_append.mp hmem with hmem2 | hc
    · rcases List.mem_append.mp hmem2 with hmem3 | hc
      · rcases List.mem_append.mp hmem3 with hmem4 | hc
        · rcases List.mem_append.mp hmem4 with hc | hc
          · exact strRender_nlFree k hc
          · exact absurd hc (by decide)
        · exact dumps_nlFree v hc
      · exact absurd hc (by decide)
    · exact dumpsObj_nlFree (JsonO.cons k' v' t) hc
end

/-- Splitting a character stream into newline-terminated lines: each
newline ends the current line. -/
def linesNl : List Char → List (List Char)
  | [] => []
  | c :: t =>
    if c = '\n' then [] :: linesNl t
    else
      match linesNl t with
      | [] => [[c]]
      | l :: ls => (c :: l) :: ls

/-- Peeling one complete newline-terminated line off the front of a
stream. -/
theorem linesNl_line_cons : ∀ (A rest : List Char), '\n' ∉ A →
    linesNl (A ++ '\n' :: rest) = A :: linesNl rest
  | [], rest, _ => by simp [linesNl]
  | c :: t, rest, h => by
    simp only [List.mem_cons] at h
    push_neg at h
    obtain ⟨h1, h2⟩ := h
    simp only [List.cons_append, linesNl, if_neg (Ne.symm h1), List.append_eq]
    rw [linesNl_line_cons t rest h2]

/-- Unfolding a sequence of log_metrics calls: the final file is the
initial file followed by, for each call in order, the one serialized
entry plus its terminating newline. -/
theorem runLog_eq_append : ∀ (calls : List LogCall) (file : List Char),
    runLog calls file
      = file ++ (calls.map (fun c => dumps (logEntry c) ++ ['\n'])).flatten
  | [], file => by simp [runLog]
  | c :: t, file => by
    have ih := runLog_eq_append t (log_metrics c file)
    simp only [runLog] at ih ⊢
    rw [List.foldl_cons, ih, log_metrics]
    simp [List.append_assoc]

/-- Newline count of the joined lines equals the number of calls. -/
theorem joined_lines_newline_count : ∀ (calls : List LogCall),
    ((calls.map (fun c => dumps (logEntry c) ++ ['\n'])).flatten).count '\n'
      = calls.length
  | [] => by simp
  | c :: t => by
    have h0 : (dumps (logEntry c)).count '\n' = 0 :=
      List.count_eq_zero.mpr (dumps_nlFree _)
    simp only [List.map_cons, List.flatten_cons, List.count_append,
      joined_lines_newline_count t, h0, List.length_cons]
    simp [List.count_cons]
    omega

/-- The joined lines split back into exactly the serialized entries, in
call order. -/
theorem joined_lines_split : ∀ (calls : List LogCall),
    linesNl ((calls.map (fun c => dumps (logEntry c) ++ ['\n'])).flatten)
      = calls.map (fun c => dumps (logEntry c))
  | [] => by simp [linesNl]
  | c :: t => by
    simp only [List.map_cons, List.flatten_cons, List.append_assoc,
      List.singleton_append]
    rw [linesNl_line_cons _ _ (dumps_nlFree _), joined_lines_split t]

/-- C5: N log_metrics calls append exactly N newline-terminated lines to
the log file, in call order; each call contributes one single write of
the fully serialized entry followed by the newline terminator, the
serialized entry itself contains no newline (so no call leaves a partial
line), the newline count of the grown file rises by exactly N, and
splitting the produced log into lines returns exactly the N complete
serialized entries in call order. -/
theorem log_metrics_appends_one_complete_line_per_call
    (calls : List LogCall) (file : List Char) :
    runLog calls file
      = file ++ (calls.map (fun c => dumps (logEntry c) ++ ['\n'])).flatten
    ∧ (∀ c ∈ calls, '\n' ∉ dumps (logEntry c))
    ∧ (runLog calls file).count '\n' = file.count '\n' + calls.length
    ∧ linesNl (runLog calls []) = calls.map (fun c => dumps (logEntry c)) := by
  refine ⟨runLog_eq_append calls file, fun c _ => dumps_nlFree _, ?_, ?_⟩
  · rw [runLog_eq_append calls file, List.count_append,
      joined_lines_newline_count calls]
  · rw [runLog_eq_append calls [], List.nil_append, joined_lines_split calls]

/-- Concrete instance of C5: one call on an empty log yields exactly the
one serialized entry as its single complete line. -/
theorem log_metrics_appends_one_complete_line_per_call_witness :
    linesNl (runLog [{ nowIso := "2024-01-01T00:00:00", metrics := JsonV.null, context := none }] [])
      = [dumps (logEntry { nowIso := "2024-01-01T00:00:00", metrics := JsonV.null, context := none })] :=
  (log_metrics_appends_one_complete_line_per_call
    [{ nowIso := "2024-01-01T00:00:00", metrics := JsonV.null, context := none }] []).2.2.2

/-! ### Claim C6: load_all_recommendations sorts by timestamp descending -/

/-- Strict descending comparison on records by creation timestamp. -/
def recLt (a b : RecDoc) : Prop :=
  tsKey b < tsKey a

instance : IsTotal RecDoc recLe :=
  ⟨fun a b => le_total (tsKey b) (tsKey a)⟩

instance : IsTrans RecDoc recLe :=
  ⟨fun _ _ _ h1 h2 => le_trans h2 h1⟩

instance : IsAntisymm RecDoc recLt :=
  ⟨fun _ _ h1 h2 => (lt_asymm h1 h2).elim⟩

/-- A directory entry with a different name does not affect loading a
given identifier. -/
theorem load_recommendation_cons_other (k' k : String) (d : Doc) (t : FS)
    (h : ¬(k = k')) :
    load_recommendation k' ((k, d) :: t) = load_recommendation k' t := by
  simp [load_recommendation, fsLookup, h]

/-- With duplicate-free filenames, walking the listing and loading each
file collects exactly the parsable records, in listing order; unparsable
files contribute nothing. -/
theorem collect_eq_parsables : ∀ (fs : FS), (fs.map Prod.fst).Nodup →
    (fs.map Prod.fst).filterMap (fun rec_id => load_recommendation rec_id fs)
      = parsables fs
  | [], _ => rfl
  | (k, d) :: t, hnd => by
    simp only [List.map_cons, List.nodup_cons] at hnd
    obtain ⟨hk, hndt⟩ := hnd
    have hcongr : (t.map Prod.fst).filterMap
          (fun rec_id => load_recommendation rec_id ((k, d) :: t))
        = (t.map Prod.fst).filterMap (fun rec_id => load_recommendation rec_id t) :=
      List.filterMap_congr
        (fun x hx => load_recommendation_cons_other x k d t
          (fun he => hk (by rw [he]; exact hx)))
    cases d with
    | ok r =>
      have hhead : load_recommendation k ((k, Doc.ok r) :: t) = some r := by
        simp [load_recommendation, fsLookup]
      rw [List.map_cons, List.filterMap_cons, hhead, hcongr,
        collect_eq_parsables t hndt]
      simp [parsables, List.filterMap_cons]
    | bad =>
      have hhead : load_recommendation k ((k, Doc.bad) :: t) = none := by
        simp [load_recommendation, fsLookup]
      rw [List.map_cons, List.filterMap_cons, hhead, hcongr,
        collect_eq_parsables t hndt]
      simp [parsables, List.filterMap_cons]

/-- C6: whenever the parsable documents of the store are exactly three
records with strictly increasing creation timestamps T1 < T2 < T3 (in any
directory-listing order, with any number of unparsable documents skipped
alongside them), load_all_recommendations returns them most recent first:
[T3, T2, T1]. -/
theorem load_all_orders_by_timestamp_descending
    (fs : FS) (r1 r2 r3 : RecDoc)
    (hnd : (fs.map Prod.fst).Nodup)
    (hperm : (parsables fs).Perm [r1, r2, r3])
    (h12 : tsKey r1 < tsKey r2) (h23 : tsKey r2 < tsKey r3) :
    load_all_recommendations fs = [r3, r2, r1] := by
  have heq : load_all_recommendations fs
      = List.insertionSort recLe (parsables fs) := by
    unfold load_all_recommendations
    rw [collect_eq_parsables fs hnd]
  rw [heq]
  have hrev : ([r1, r2, r3] : List RecDoc).Perm [r3, r2, r1] := by
    have h := (List.reverse_perm [r1, r2, r3]).symm
    simpa using h
  have hperm2 : (List.insertionSort recLe (parsables fs)).Perm [r3, r2, r1] :=
    ((List.perm_insertionSort recLe (parsables fs)).trans hperm).trans hrev
  have hs1 : List.Sorted recLe (List.insertionSort recLe (parsables fs)) :=
    List.sorted_insertionSort recLe (parsables fs)
  have e12 : tsKey r1 ≠ tsKey r2 := ne_of_lt h12
  have e23 : tsKey r2 ≠ tsKey r3 := ne_of_lt h23
  have e13 : tsKey r1 ≠ tsKey r3 := ne_of_lt (lt_trans h12 h23)
  have hknd : ((List.insertionSort recLe (parsables fs)).map tsKey).Nodup := by
    have h3 : (([r3, r2, r1] : List RecDoc).map tsKey).Nodup := by
      simp only [List.map_cons, List.map_nil, List.nodup_cons, List.mem_cons,
        List.mem_singleton, List.not_mem_nil, or_false]
      refine ⟨?_, ?_, by simp⟩
      · intro hc
        rcases hc with hc | hc
        · exact e23.symm hc
        · exact e13.symm hc
      · intro hc
        exact e12.symm hc
    exact (hperm2.map tsKey).symm.nodup h3
  have hs2 : List.Sorted recLt (List.insertionSort recLe (parsables fs)) := by
    have hpw := List.pairwise_map.mp hknd
    exact (hs1.and hpw).imp (fun h => lt_of_le_of_ne h.1 h.2.symm)
  have hs3 : List.Sorted recLt [r3, r2, r1] := by
    refine List.Pairwise.cons (fun b hb => ?_)
      (List.Pairwise.cons (fun b hb => ?_)
        (List.Pairwise.cons (fun b hb => absurd hb (List.not_mem_nil b))
          List.Pairwise.nil))
    · rcases List.mem_cons.mp hb with hc | hc
      · rw [hc]
        exact h23
      · rw [List.mem_singleton.mp hc]
        exact lt_trans h12 h23
    · rw [List.mem_singleton.mp hb]
      exact h12
  exact List.eq_of_perm_of_sorted hperm2 hs2 hs3

/-- Record created first (oldest creation timestamp). -/
def recT1 : RecDoc :=
  { id := "20240101000000", timestamp := "2024-01-01T00:00:00",
    user_goal := "g1", mining_algorithm := "a1",
    system_snapshot_at_recommendation := JsonV.null,
    llm_recommendation_text := "t1", applied_status := "PENDING_USER_APPLY",
    actual_performance_after_apply := JsonO.nil,
    user_notes := none, last_updated := none }

/-- Record created second. -/
def recT2 : RecDoc :=
  { recT1 with id := "20240102000000", timestamp := "2024-01-02T00:00:00", user_goal := "g2", llm_recommendation_text := "t2" }

/-- Record created last (most recent creation timestamp). -/
def recT3 : RecDoc :=
  { recT1 with id := "20240103000000", timestamp := "2024-01-03T00:00:00", user_goal := "g3", llm_recommendation_text := "t3" }

/-- A store listing the three records out of creation order, with one
unparsable document mixed in. -/
def fsSorted : FS :=
  [("20240102000000", Doc.ok recT2), ("corrupt", Doc.bad),
   ("20240101000000", Doc.ok recT1), ("20240103000000", Doc.ok recT3)]

/-- Concrete instance of C6: the shuffled store with a corrupt document
lists as [T3, T2, T1], the corrupt file skipped. -/
theorem load_all_orders_by_timestamp_descending_witness :
    load_all_recommendations fsSorted = [recT3, recT2, recT1] :=
  load_all_orders_by_timestamp_descending fsSorted recT1 recT2 recT3
    (by decide)
    (by rw [show parsables fsSorted = [recT2, recT1, recT3] from rfl]
        exact List.Perm.swap recT1 recT2 [recT3])
    (by decide) (by decide)

/-! ### SystemMonitor: real-time telemetry capture (src/system_monitor.py)

Hardware readings are modelled as oracles: each vendor-library or psutil
call either returns a value or raises.  NVML raises are split into
NVMLError_NotSupported (the only kind some inner handlers catch) and
everything else (other NVMLError or a generic exception, which only the
outer handler around the whole NVIDIA block catches).  psutil calls and
the sensor-dictionary indexing have no handler at all, so their raises
leave get_realtime_metrics as `Except.error`.  Python floats are modelled
as rationals; nothing in the claims depends on rounding of binary
floating point. -/

/-- A metric field value: a number, or a marker string such as "N/A". -/
inductive MVal where
  | num (q : ℚ)
  | str (s : String)
deriving DecidableEq

/-- The GPU block of a Telemetry Snapshot. -/
structure Gpu where
  temp_celsius : MVal
  hotspot_temp_celsius : MVal
  power_draw_watts : MVal
  core_clock_mhz : MVal
  memory_clock_mhz : MVal
  fan_speed_percent : MVal
  vram_used_mb : MVal
  hash_rate_mhps : MVal
  efficiency_jpmh : MVal
deriving DecidableEq

/-- The initial GPU block of the metrics dict: every field the "N/A"
marker (hash rate and efficiency are placeholders never written). -/
def gpuInit : Gpu :=
  { temp_celsius := MVal.str "N/A", hotspot_temp_celsius := MVal.str "N/A",
    power_draw_watts := MVal.str "N/A", core_clock_mhz := MVal.str "N/A",
    memory_clock_mhz := MVal.str "N/A", fan_speed_percent := MVal.str "N/A",
    vram_used_mb := MVal.str "N/A", hash_rate_mhps := MVal.str "N/A",
    efficiency_jpmh := MVal.str "N/A" }

/-- The CPU block of a Telemetry Snapshot. -/
structure Cpu where
  temperature_celsius : MVal
  usage_percent : MVal
deriving DecidableEq

/-- The RAM block: always numeric, filled directly from virtual_memory. -/
structure Ram where
  total_gb : ℚ
  used_gb : ℚ
  usage_percent : ℚ
deriving DecidableEq

/-- A complete Telemetry Snapshot as returned by get_realtime_metrics. -/
structure Metrics where
  timestamp : String
  gpu : Gpu
  cpu : Cpu
  ram : Ram
deriving DecidableEq

/-- Kinds of NVML failure: NVMLError_NotSupported (caught by the inner
per-field handlers that have one) versus any other NVMLError or generic
exception (caught only by the handler around the whole NVIDIA block). -/
inductive NvErr where
  | notSupported
  | other
deriving DecidableEq

/-- One capture's NVML readings, plus the `hasattr` checks on the pynvml
module that guard some of them. -/
structure NvOracle where
  initHandle : Except NvErr Unit
  hasTempGpu : Bool
  temp : Except NvErr Int
  hasTempMem : Bool
  tempMem : Except NvErr Int
  power : Except NvErr Int
  hasClockGraphics : Bool
  clockGraphics : Except NvErr Int
  hasClockMem : Bool
  clockMem : Except NvErr Int
  fan : Except NvErr Int
  memUsed : Except NvErr Int

/-- VRAM usage, read last inside the NVIDIA try block; bytes are floor
divided down to megabytes. -/
def nvStepVram (o : NvOracle) (g : Gpu) : Gpu :=
  match o.memUsed with
  | Except.error _ => g
  | Except.ok b => { g with vram_used_mb := MVal.num ((Int.fdiv b 1048576 : Int) : ℚ) }

/-- Fan speed: the inner handler catches only NVMLError_NotSupported. -/
def nvStepFan (o : NvOracle) (g : Gpu) : Gpu :=
  match o.fan with
  | Except.ok v => nvStepVram o { g with fan_speed_percent := MVal.num (v : ℚ) }
  | Except.error NvErr.notSupported =>
      nvStepVram o { g with fan_speed_percent := MVal.str "N/A (Not Supported)" }
  | Except.error NvErr.other => g

/-- Memory clock: guarded by hasattr and an inner NotSupported handler;
without the attribute the local default "N/A" is stored. -/
def nvStepClockMem (o : NvOracle) (g : Gpu) : Gpu :=
  if o.hasClockMem then
    match o.clockMem with
    | Except.ok v => nvStepFan o { g with memory_clock_mhz := MVal.num (v : ℚ) }
    | Except.error NvErr.notSupported =>
        nvStepFan o { g with memory_clock_mhz := MVal.str "N/A (Not Supported)" }
    | Except.error NvErr.other => g
  else nvStepFan o { g with memory_clock_mhz := MVal.str "N/A" }

/-- Graphics clock: same guard structure as the memory clock. -/
def nvStepClockGraphics (o : NvOracle) (g : Gpu) : Gpu :=
  if o.hasClockGraphics then
    match o.clockGraphics with
    | Except.ok v => nvStepClockMem o { g with core_clock_mhz := MVal.num (v : ℚ) }
    | Except.error NvErr.notSupported =>
        nvStepClockMem o { g with core_clock_mhz := MVal.str "N/A (Not Supported)" }
    | Except.error NvErr.other => g
  else nvStepClockMem o { g with core_clock_mhz := MVal.str "N/A" }

/-- Power draw: unguarded inside the block; milliwatts over 1000.0. -/
def nvStepPower (o : NvOracle) (g : Gpu) : Gpu :=
  match o.power with
  | Except.error _ => g
  | Except.ok p => nvStepClockGraphics o { g with power_draw_watts := MVal.num ((p : ℚ) / 1000) }

/-- Hotspot temperature: hasattr guard plus inner NotSupported handler. -/
def nvStepHotspot (o : NvOracle) (g : Gpu) : Gpu :=
  if o.hasTempMem then
    match o.tempMem with
    | Except.ok v => nvStepPower o { g with hotspot_temp_celsius := MVal.num (v : ℚ) }
    | Except.error NvErr.notSupported =>
        nvStepPower o { g with hotspot_temp_celsius := MVal.str "N/A (Not Supported)" }
    | Except.error NvErr.other => g
  else nvStepPower o { g with hotspot_temp_celsius := MVal.str "N/A (NVML_TEMP_GPU_MEM not found)" }

/-- Core temperature: hasattr guard but no inner handler, so any raise
aborts the remaining readings of the block. -/
def nvStepTemp (o : NvOracle) (g : Gpu) : Gpu :=
  if o.hasTempGpu then
    match o.temp with
    | Except.ok v => nvStepHotspot o { g with temp_celsius := MVal.num (v : ℚ) }
    | Except.error _ => g
  else nvStepHotspot o { g with temp_celsius := MVal.str "N/A (NVML_TEMP_GPU not found)" }

/-- The NVIDIA metrics try block: init plus handle acquisition first,
then the reading chain; any uncaught raise returns the fields collected
so far, every later field left at its marker. -/
def nvidiaBlock (o : NvOracle) (g : Gpu) : Gpu :=
  match o.initHandle with
  | Except.error _ => g
  | Except.ok _ => nvStepTemp o g

/-- Outcome of the amdgpu_top subprocess plus JSON parsing: every failure
shape is caught inside the AMD branch and leaves the GPU block untouched. -/
structure AmdCard where
  tempEdge : Option MVal
  tempJunction : Option MVal
  powerAverage : Option MVal
  gfxClkFreq : Option MVal
  memClkFreq : Option MVal
  fanSpeedPercent : Option MVal
  vramUsed : Option MVal
deriving DecidableEq

/-- How the amdgpu_top invocation went. -/
inductive AmdOutcome where
  | raised
  | nonzeroReturn
  | badJson
  | noCards
  | card (c : AmdCard)
deriving DecidableEq

/-- The AMD Linux metrics branch: on a parsed card, fields are set from
the card with "N/A" defaults, and the numeric conversions are applied
only to isinstance-checked numbers; every failure leaves the block as
it was. -/
def amdBlock (a : AmdOutcome) (g : Gpu) : Gpu :=
  match a with
  | AmdOutcome.card c =>
    let g1 := { g with temp_celsius := c.tempEdge.getD (MVal.str "N/A") }
    let g2 := { g1 with hotspot_temp_celsius := c.tempJunction.getD (MVal.str "N/A") }
    let g3 := { g2 with power_draw_watts := (match c.powerAverage with
        | some (MVal.num q) => MVal.num (q / 1000)
        | _ => MVal.str "N/A") }
    let g4 := { g3 with core_clock_mhz := (match c.gfxClkFreq with
        | some (MVal.num q) => MVal.num (q / 1000000)
        | _ => MVal.str "N/A") }
    let g5 := { g4 with memory_clock_mhz := (match c.memClkFreq with
        | some (MVal.num q) => MVal.num (q / 1000000)
        | _ => MVal.str "N/A") }
    let g6 := { g5 with fan_speed_percent := c.fanSpeedPercent.getD (MVal.str "N/A") }
    { g6 with vram_used_mb := c.vramUsed.getD (MVal.str "N/A") }
  | _ => g

/-- Failures of the psutil layer (raises with no handler in
get_realtime_metrics) and the IndexError from indexing an empty sensor
list. -/
inductive PsErr where
  | exc (msg : String)
  | indexError
deriving DecidableEq

/-- One psutil.virtual_memory() result, in bytes and percent. -/
structure VMem where
  total : ℚ
  used : ℚ
  percent : ℚ
deriving DecidableEq

/-- The psutil readings of one capture: virtual memory, cpu_percent, the
hasattr check for sensors_temperatures, and the sensor dictionary (name
to list of sensor currents). -/
structure PsOracle where
  virtualMemory : Except PsErr VMem
  cpuPercent : Except PsErr ℚ
  hasSensors : Bool
  sensorsTemps : Except PsErr (List (String × List ℚ))

/-- Python round-half-even to an integer. -/
def roundHalfEven (q : ℚ) : ℤ :=
  if q - ⌊q⌋ = 1 / 2 then (if Even ⌊q⌋ then ⌊q⌋ else ⌊q⌋ + 1) else round q

/-- Python round(x, 2). -/
def round2 (q : ℚ) : ℚ :=
  ((roundHalfEven (q * 100) : ℚ)) / 100

/-- Dictionary membership for the sensors mapping. -/
def lookupTemps : List (String × List ℚ) → String → Option (List ℚ)
  | [], _ => none
  | (k', v) :: t, k => if k' = k then some v else lookupTemps t k

/-- The CPU-temperature paragraph of get_realtime_metrics: unguarded
sensor reads; `temps[name][0]` on an empty entry raises IndexError; with
no recognised sensor name the field keeps its "N/A" marker. -/
def cpu_temperature_read (ps : PsOracle) : Except PsErr MVal :=
  if ps.hasSensors then
    match ps.sensorsTemps with
    | Except.error e => Except.error e
    | Except.ok temps =>
      match lookupTemps temps "coretemp" with
      | some [] => Except.error PsErr.indexError
      | some (x :: _) => Except.ok (MVal.num x)
      | none =>
        match lookupTemps temps "k10temp" with
        | some [] => Except.error PsErr.indexError
        | some (x :: _) => Except.ok (MVal.num x)
        | none =>
          match lookupTemps temps "cpu_thermal" with
          | some [] => Except.error PsErr.indexError
          | some (x :: _) => Except.ok (MVal.num x)
          | none => Except.ok (MVal.str "N/A")
  else Except.ok (MVal.str "N/A")

/-- The monitor's construction state: the vendor selector is uppercased
once in the constructor, the OS is read from the platform. -/
structure SystemMonitorState where
  gpu_brand : String
  os : String
deriving DecidableEq

/-- SystemMonitor.__init__ (the static-info probe is cached separately
and does not affect real-time capture). -/
def mkSystemMonitor (gpu_brand os : String) : SystemMonitorState :=
  { gpu_brand := gpu_brand.toUpper, os := os }

/-- SystemMonitor.get_realtime_metrics.  The metrics dict is built first
(the three virtual_memory reads can raise, unguarded), then the vendor
GPU branch runs with its own handlers, then cpu_percent and the sensor
reads run unguarded. -/
def get_realtime_metrics (mon : SystemMonitorState) (nvmlAvailable : Bool)
    (nv : NvOracle) (amd : AmdOutcome) (ps : PsOracle) (nowIso : String) :
    Except PsErr Metrics :=
  match ps.virtualMemory with
  | Except.error e => Except.error e
  | Except.ok vm =>
    let ram : Ram :=
      { total_gb := round2 (vm.total / 1073741824),
        used_gb := round2 (vm.used / 1073741824),
        usage_percent := vm.percent }
    let gpu :=
      if mon.gpu_brand = "NVIDIA" && nvmlAvailable then nvidiaBlock nv gpuInit
      else if mon.gpu_brand = "AMD" && mon.os = "Linux" then amdBlock amd gpuInit
      else gpuInit
    match ps.cpuPercent with
    | Except.error e => Except.error e
    | Except.ok usage =>
      match cpu_temperature_read ps with
      | Except.error e => Except.error e
      | Except.ok tempv =>
        Except.ok { timestamp := nowIso, gpu := gpu,
                    cpu := { temperature_celsius := tempv, usage_percent := MVal.num usage },
                    ram := ram }

/-- Provenance of a numeric core-temperature field: it was read from the
temperature source. -/
def tempProv (o : NvOracle) (q : ℚ) : Prop :=
  ∃ v, o.temp = Except.ok v ∧ q = (v : ℚ)

/-- Provenance of a numeric hotspot field. -/
def hotProv (o : NvOracle) (q : ℚ) : Prop :=
  ∃ v, o.tempMem = Except.ok v ∧ q = (v : ℚ)

/-- Provenance of a numeric power field: milliwatts over 1000. -/
def powProv (o : NvOracle) (q : ℚ) : Prop :=
  ∃ p, o.power = Except.ok p ∧ q = (p : ℚ) / 1000

/-- Provenance of a numeric core-clock field. -/
def coreProv (o : NvOracle) (q : ℚ) : Prop :=
  ∃ v, o.clockGraphics = Except.ok v ∧ q = (v : ℚ)

/-- Provenance of a numeric memory-clock field. -/
def memProv (o : NvOracle) (q : ℚ) : Prop :=
  ∃ v, o.clockMem = Except.ok v ∧ q = (v : ℚ)

/-- Provenance of a numeric fan-speed field. -/
def fanProv (o : NvOracle) (q : ℚ) : Prop :=
  ∃ v, o.fan = Except.ok v ∧ q = (v : ℚ)

/-- Provenance of a numeric VRAM field: bytes floor-divided to MB. -/
def vramProv (o : NvOracle) (q : ℚ) : Prop :=
  ∃ b, o.memUsed = Except.ok b ∧ q = ((Int.fdiv b 1048576 : Int) : ℚ)

/-- Stage spec for the VRAM read: earlier fields untouched; a numeric
VRAM value either comes from the source or was already there. -/
theorem nvStepVram_spec (o : NvOracle) (g : Gpu) :
    (nvStepVram o g).temp_celsius = g.temp_celsius
    ∧ (nvStepVram o g).hotspot_temp_celsius = g.hotspot_temp_celsius
    ∧ (nvStepVram o g).power_draw_watts = g.power_draw_watts
    ∧ (nvStepVram o g).core_clock_mhz = g.core_clock_mhz
    ∧ (nvStepVram o g).memory_clock_mhz = g.memory_clock_mhz
    ∧ (nvStepVram o g).fan_speed_percent = g.fan_speed_percent
    ∧ (∀ q, (nvStepVram o g).vram_used_mb = MVal.num q →
        vramProv o q ∨ g.vram_used_mb = MVal.num q)
    ∧ (nvStepVram o g).hash_rate_mhps = g.hash_rate_mhps
    ∧ (nvStepVram o g).efficiency_jpmh = g.efficiency_jpmh := by
  unfold nvStepVram
  cases hm : o.memUsed with
  | error e =>
    exact ⟨rfl, rfl, rfl, rfl, rfl, rfl, fun q hq => Or.inr hq, rfl, rfl⟩
  | ok b =>
    refine ⟨rfl, rfl, rfl, rfl, rfl, rfl, fun q hq => Or.inl ⟨b, hm, ?_⟩, rfl, rfl⟩
    exact (MVal.num.inj hq).symm

/-- Stage spec for the fan read. -/
theorem nvStepFan_spec (o : NvOracle) (g : Gpu) :
    (nvStepFan o g).temp_celsius = g.temp_celsius
    ∧ (nvStepFan o g).hotspot_temp_celsius = g.hotspot_temp_celsius
    ∧ (nvStepFan o g).power_draw_watts = g.power_draw_watts
    ∧ (nvStepFan o g).core_clock_mhz = g.core_clock_mhz
    ∧ (nvStepFan o g).memory_clock_mhz = g.memory_clock_mhz
    ∧ (∀ q, (nvStepFan o g).fan_speed_percent = MVal.num q →
        fanProv o q ∨ g.fan_speed_percent = MVal.num q)
    ∧ (∀ q, (nvStepFan o g).vram_used_mb = MVal.num q →
        vramProv o q ∨ g.vram_used_mb = MVal.num q)
    ∧ (nvStepFan o g).hash_rate_mhps = g.hash_rate_mhps
    ∧ (nvStepFan o g).efficiency_jpmh = g.efficiency_jpmh := by
  unfold nvStepFan
  cases hf : o.fan with
  | ok v =>
    obtain ⟨s1, s2, s3, s4, s5, s6, s7, s8, s9⟩ :=
      nvStepVram_spec o { g with fan_speed_percent := MVal.num (v : ℚ) }
    exact ⟨s1, s2, s3, s4, s5,
      fun q hq => Or.inl ⟨v, hf, (MVal.num.inj (s6.symm.trans hq)).symm⟩,
      fun q hq => s7 q hq, s8, s9⟩
  | error e =>
    cases e with
    | notSupported =>
      obtain ⟨s1, s2, s3, s4, s5, s6, s7, s8, s9⟩ :=
        nvStepVram_spec o { g with fan_speed_percent := MVal.str "N/A (Not Supported)" }
      exact ⟨s1, s2, s3, s4, s5,
        fun q hq => MVal.noConfusion (s6.symm.trans hq),
        fun q hq => s7 q hq, s8, s9⟩
    | other =>
      exact ⟨rfl, rfl, rfl, rfl, rfl, fun q hq => Or.inr hq,
        fun q hq => Or.inr hq, rfl, rfl⟩

/-- Stage spec for the memory-clock read. -/
theorem nvStepClockMem_spec (o : NvOracle) (g : Gpu) :
    (nvStepClockMem o g).temp_celsius = g.temp_celsius
    ∧ (nvStepClockMem o g).hotspot_temp_celsius = g.hotspot_temp_celsius
    ∧ (nvStepClockMem o g).power_draw_watts = g.power_draw_watts
    ∧ (nvStepClockMem o g).core_clock_mhz = g.core_clock_mhz
    ∧ (∀ q, (nvStepClockMem o g).memory_clock_mhz = MVal.num q →
        memProv o q ∨ g.memory_clock_mhz = MVal.num q)
    ∧ (∀ q, (nvStepClockMem o g).fan_speed_percent = MVal.num q →
        fanProv o q ∨ g.fan_speed_percent = MVal.num q)
    ∧ (∀ q, (nvStepClockMem o g).vram_used_mb = MVal.num q →
        vramProv o q ∨ g.vram_used_mb = MVal.num q)
    ∧ (nvStepClockMem o g).hash_rate_mhps = g.hash_rate_mhps
    ∧ (nvStepClockMem o g).efficiency_jpmh = g.efficiency_jpmh := by
  unfold nvStepClockMem
  cases hc : o.hasClockMem with
  | true =>
    cases hcm : o.clockMem with
    | ok v =>
      obtain ⟨s1, s2, s3, s4, s5, s6, s7, s8, s9⟩ :=
        nvStepFan_spec o { g with memory_clock_mhz := MVal.num (v : ℚ) }
      exact ⟨s1, s2, s3, s4,
        fun q hq => Or.inl ⟨v, hcm, (MVal.num.inj (s5.symm.trans hq)).symm⟩,
        fun q hq => s6 q hq, fun q hq => s7 q hq, s8, s9⟩
    | error e =>
      cases e with
      | notSupported =>
        obtain ⟨s1, s2, s3, s4, s5, s6, s7, s8, s9⟩ :=
          nvStepFan_spec o { g with memory_clock_mhz := MVal.str "N/A (Not Supported)" }
        exact ⟨s1, s2, s3, s4,
          fun q hq => MVal.noConfusion (s5.symm.trans hq),
          fun q hq => s6 q hq, fun q hq => s7 q hq, s8, s9⟩
      | other =>
        exact ⟨rfl, rfl, rfl, rfl, fun q hq => Or.inr hq, fun q hq => Or.inr hq,
          fun q hq => Or.inr hq, rfl, rfl⟩
  | false =>
    obtain ⟨s1, s2, s3, s4, s5, s6, s7, s8, s9⟩ :=
      nvStepFan_spec o { g with memory_clock_mhz := MVal.str "N/A" }
    exact ⟨s1, s2, s3, s4,
      fun q hq => MVal.noConfusion (s5.symm.trans hq),
      fun q hq => s6 q hq, fun q hq => s7 q hq, s8, s9⟩

/-- Stage spec for the graphics-clock read. -/
theorem nvStepClockGraphics_spec (o : NvOracle) (g : Gpu) :
    (nvStepClockGraphics o g).temp_celsius = g.temp_celsius
    ∧ (nvStepClockGraphics o g).hotspot_temp_celsius = g.hotspot_temp_celsius
    ∧ (nvStepClockGraphics o g).power_draw_watts = g.power_draw_watts
    ∧ (∀ q, (nvStepClockGraphics o g).core_clock_mhz = MVal.num q →
        coreProv o q ∨ g.core_clock_mhz = MVal.num q)
    ∧ (∀ q, (nvStepClockGraphics o g).memory_clock_mhz = MVal.num q →
        memProv o q ∨ g.memory_clock_mhz = MVal.num q)
    ∧ (∀ q, (nvStepClockGraphics o g).fan_speed_percent = MVal.num q →
        fanProv o q ∨ g.fan_speed_percent = MVal.num q)
    ∧ (∀ q, (nvStepClockGraphics o g).vram_used_mb = MVal.num q →
        vramProv o q ∨ g.vram_used_mb = MVal.num q)
    ∧ (nvStepClockGraphics o g).hash_rate_mhps = g.hash_rate_mhps
    ∧ (nvStepClockGraphics o g).efficiency_jpmh = g.efficiency_jpmh := by
  unfold nvStepClockGraphics
  cases hc : o.hasClockGraphics with
  | true =>
    cases hcg : o.clockGraphics with
    | ok v =>
      obtain ⟨s1, s2, s3, s4, s5, s6, s7, s8, s9⟩ :=
        nvStepClockMem_spec o { g with core_clock_mhz := MVal.num (v : ℚ) }
      exact ⟨s1, s2, s3,
        fun q hq => Or.inl ⟨v, hcg, (MVal.num.inj (s4.symm.trans hq)).symm⟩,
        fun q hq => s5 q hq, fun q hq => s6 q hq, fun q hq => s7 q hq, s8, s9⟩
    | error e =>
      cases e with
      | notSupported =>
        obtain ⟨s1, s2, s3, s4, s5, s6, s7, s8, s9⟩ :=
          nvStepClockMem_spec o { g with core_clock_mhz := MVal.str "N/A (Not Supported)" }
        exact ⟨s1, s2, s3,
          fun q hq => MVal.noConfusion (s4.symm.trans hq),
          fun q hq => s5 q hq, fun q hq => s6 q hq, fun q hq => s7 q hq, s8, s9⟩
      | other =>
        exact ⟨rfl, rfl, rfl, fun q hq => Or.inr hq, fun q hq => Or.inr hq,
          fun q hq => Or.inr hq, fun q hq => Or.inr hq, rfl, rfl⟩
  | false =>
    obtain ⟨s1, s2, s3, s4, s5, s6, s7, s8, s9⟩ :=
      nvStepClockMem_spec o { g with core_clock_mhz := MVal.str "N/A" }
    exact ⟨s1, s2, s3,
      fun q hq => MVal.noConfusion (s4.symm.trans hq),
      fun q hq => s5 q hq, fun q hq => s6 q hq, fun q hq => s7 q hq, s8, s9⟩

/-- Stage spec for the power read (no inner handler: any raise aborts
the remaining readings). -/
theorem nvStepPower_spec (o : NvOracle) (g : Gpu) :
    (nvStepPower o g).temp_celsius = g.temp_celsius
    ∧ (nvStepPower o g).hotspot_temp_celsius = g.hotspot_temp_celsius
    ∧ (∀ q, (nvStepPower o g).power_draw_watts = MVal.num q →
        powProv o q ∨ g.power_draw_watts = MVal.num q)
    ∧ (∀ q, (nvStepPower o g).core_clock_mhz = MVal.num q →
        coreProv o q ∨ g.core_clock_mhz = MVal.num q)
    ∧ (∀ q, (nvStepPower o g).memory_clock_mhz = MVal.num q →
        memProv o q ∨ g.memory_clock_mhz = MVal.num q)
    ∧ (∀ q, (nvStepPower o g).fan_speed_percent = MVal.num q →
        fanProv o q ∨ g.fan_speed_percent = MVal.num q)
    ∧ (∀ q, (nvStepPower o g).vram_used_mb = MVal.num q →
        vramProv o q ∨ g.vram_used_mb = MVal.num q)
    ∧ (nvStepPower o g).hash_rate_mhps = g.hash_rate_mhps
    ∧ (nvStepPower o g).efficiency_jpmh = g.efficiency_jpmh := by
  unfold nvStepPower
  cases hp : o.power with
  | ok p =>
    obtain ⟨s1, s2, s3, s4, s5, s6, s7, s8, s9⟩ :=
      nvStepClockGraphics_spec o { g with power_draw_watts := MVal.num ((p : ℚ) / 1000) }
    exact ⟨s1, s2,
      fun q hq => Or.inl ⟨p, hp, (MVal.num.inj (s3.symm.trans hq)).symm⟩,
      fun q hq => s4 q hq, fun q hq => s5 q hq, fun q hq => s6 q hq,
      fun q hq => s7 q hq, s8, s9⟩
  | error e =>
    exact ⟨rfl, rfl, fun q hq => Or.inr hq, fun q hq => Or.inr hq,
      fun q hq => Or.inr hq, fun q hq => Or.inr hq, fun q hq => Or.inr hq, rfl, rfl⟩

/-- Stage spec for the hotspot read. -/
theorem nvStepHotspot_spec (o : NvOracle) (g : Gpu) :
    (nvStepHotspot o g).temp_celsius = g.temp_celsius
    ∧ (∀ q, (nvStepHotspot o g).hotspot_temp_celsius = MVal.num q →
        hotProv o q ∨ g.hotspot_temp_celsius = MVal.num q)
    ∧ (∀ q, (nvStepHotspot o g).power_draw_watts = MVal.num q →
        powProv o q ∨ g.power_draw_watts = MVal.num q)
    ∧ (∀ q, (nvStepHotspot o g).core_clock_mhz = MVal.num q →
        coreProv o q ∨ g.core_clock_mhz = MVal.num q)
    ∧ (∀ q, (nvStepHotspot o g).memory_clock_mhz = MVal.num q →
        memProv o q ∨ g.memory_clock_mhz = MVal.num q)
    ∧ (∀ q, (nvStepHotspot o g).fan_speed_percent = MVal.num q →
        fanProv o q ∨ g.fan_speed_percent = MVal.num q)
    ∧ (∀ q, (nvStepHotspot o g).vram_used_mb = MVal.num q →
        vramProv o q ∨ g.vram_used_mb = MVal.num q)
    ∧ (nvStepHotspot o g).hash_rate_mhps = g.hash_rate_mhps
    ∧ (nvStepHotspot o g).efficiency_jpmh = g.efficiency_jpmh := by
  unfold nvStepHotspot
  cases hc : o.hasTempMem with
  | true =>
    cases hh : o.tempMem with
    | ok v =>
      obtain ⟨s1, s2, s3, s4, s5, s6, s7, s8, s9⟩ :=
        nvStepPower_spec o { g with hotspot_temp_celsius := MVal.num (v : ℚ) }
      exact ⟨s1,
        fun q hq => Or.inl ⟨v, hh, (MVal.num.inj (s2.symm.trans hq)).symm⟩,
        fun q hq => s3 q hq, fun q hq => s4 q hq, fun q hq => s5 q hq,
        fun q hq => s6 q hq, fun q hq => s7 q hq, s8, s9⟩
    | error e =>
      cases e with
      | notSupported =>
        obtain ⟨s1, s2, s3, s4, s5, s6, s7, s8, s9⟩ :=
          nvStepPower_spec o { g with hotspot_temp_celsius := MVal.str "N/A (Not Supported)" }
        exact ⟨s1,
          fun q hq => MVal.noConfusion (s2.symm.trans hq),
          fun q hq => s3 q hq, fun q hq => s4 q hq, fun q hq => s5 q hq,
          fun q hq => s6 q hq, fun q hq => s7 q hq, s8, s9⟩
      | other =>
        exact ⟨rfl, fun q hq => Or.inr hq, fun q hq => Or.inr hq,
          fun q hq => Or.inr hq, fun q hq => Or.inr hq, fun q hq => Or.inr hq,
          fun q hq => Or.inr hq, rfl, rfl⟩
  | false =>
    obtain ⟨s1, s2, s3, s4, s5, s6, s7, s8, s9⟩ :=
      nvStepPower_spec o { g with hotspot_temp_celsius := MVal.str "N/A (NVML_TEMP_GPU_MEM not found)" }
    exact ⟨s1,
      fun q hq => MVal.noConfusion (s2.symm.trans hq),
      fun q hq => s3 q hq, fun q hq => s4 q hq, fun q hq => s5 q hq,
      fun q hq => s6 q hq, fun q hq => s7 q hq, s8, s9⟩

/-- Stage spec for the core-temperature read and, by composition with
the init step, for the whole NVIDIA block: every numeric GPU field was
read from its own source (or was already numeric before the block). -/
theorem nvidiaBlock_spec (o : NvOracle) (g : Gpu) :
    (∀ q, (nvidiaBlock o g).temp_celsius = MVal.num q →
        tempProv o q ∨ g.temp_celsius = MVal.num q)
    ∧ (∀ q, (nvidiaBlock o g).hotspot_temp_celsius = MVal.num q →
        hotProv o q ∨ g.hotspot_temp_celsius = MVal.num q)
    ∧ (∀ q, (nvidiaBlock o g).power_draw_watts = MVal.num q →
        powProv o q ∨ g.power_draw_watts = MVal.num q)
    ∧ (∀ q, (nvidiaBlock o g).core_clock_mhz = MVal.num q →
        coreProv o q ∨ g.core_clock_mhz = MVal.num q)
    ∧ (∀ q, (nvidiaBlock o g).memory_clock_mhz = MVal.num q →
        memProv o q ∨ g.memory_clock_mhz = MVal.num q)
    ∧ (∀ q, (nvidiaBlock o g).fan_speed_percent = MVal.num q →
        fanProv o q ∨ g.fan_speed_percent = MVal.num q)
    ∧ (∀ q, (nvidiaBlock o g).vram_used_mb = MVal.num q →
        vramProv o q ∨ g.vram_used_mb = MVal.num q)
    ∧ (nvidiaBlock o g).hash_rate_mhps = g.hash_rate_mhps
    ∧ (nvidiaBlock o g).efficiency_jpmh = g.efficiency_jpmh := by
  unfold nvidiaBlock
  cases hi : o.initHandle with
  | error e =>
    exact ⟨fun q hq => Or.inr hq, fun q hq => Or.inr hq, fun q hq => Or.inr hq,
      fun q hq => Or.inr hq, fun q hq => Or.inr hq, fun q hq => Or.inr hq,
      fun q hq => Or.inr hq, rfl, rfl⟩
  | ok u =>
    unfold nvStepTemp
    cases hc : o.hasTempGpu with
    | true =>
      cases ht : o.temp with
      | ok v =>
        obtain ⟨s1, s2, s3, s4, s5, s6, s7, s8, s9⟩ :=
          nvStepHotspot_spec o { g with temp_celsius := MVal.num (v : ℚ) }
        exact ⟨fun q hq => Or.inl ⟨v, ht, (MVal.num.inj (s1.symm.trans hq)).symm⟩,
          fun q hq => s2 q hq, fun q hq => s3 q hq, fun q hq => s4 q hq,
          fun q hq => s5 q hq, fun q hq => s6 q hq, fun q hq => s7 q hq, s8, s9⟩
      | error e =>
        exact ⟨fun q hq => Or.inr hq, fun q hq => Or.inr hq, fun q hq => Or.inr hq,
          fun q hq => Or.inr hq, fun q hq => Or.inr hq, fun q hq => Or.inr hq,
          fun q hq => Or.inr hq, rfl, rfl⟩
    | false =>
      obtain ⟨s1, s2, s3, s4, s5, s6, s7, s8, s9⟩ :=
        nvStepHotspot_spec o { g with temp_celsius := MVal.str "N/A (NVML_TEMP_GPU not found)" }
      exact ⟨fun q hq => MVal.noConfusion (s1.symm.trans hq),
        fun q hq => s2 q hq, fun q hq => s3 q hq, fun q hq => s4 q hq,
        fun q hq => s5 q hq, fun q hq => s6 q hq, fun q hq => s7 q hq, s8, s9⟩

/-- The AMD branch never touches the hash-rate and efficiency
placeholders. -/
theorem amdBlock_placeholders (a : AmdOutcome) (g : Gpu) :
    (amdBlock a g).hash_rate_mhps = g.hash_rate_mhps
    ∧ (amdBlock a g).efficiency_jpmh = g.efficiency_jpmh := by
  cases a <;> exact ⟨rfl, rfl⟩

/-- Every failing amdgpu_top outcome is caught and leaves the GPU block
exactly as it was. -/
theorem amdBlock_failure (a : AmdOutcome) (g : Gpu)
    (h : ∀ c, a ≠ AmdOutcome.card c) : amdBlock a g = g := by
  cases a with
  | card c => exact absurd rfl (h c)
  | raised => rfl
  | nonzeroReturn => rfl
  | badJson => rfl
  | noCards => rfl

/-- On a parsed card every field is taken from the card (with the "N/A"
default), and the numeric conversions only fire on isinstance-checked
numbers. -/
theorem amdBlock_card (c : AmdCard) (g : Gpu) :
    (amdBlock (AmdOutcome.card c) g).temp_celsius = c.tempEdge.getD (MVal.str "N/A")
    ∧ (amdBlock (AmdOutcome.card c) g).hotspot_temp_celsius = c.tempJunction.getD (MVal.str "N/A")
    ∧ (∀ q, (amdBlock (AmdOutcome.card c) g).power_draw_watts = MVal.num q →
        ∃ p, c.powerAverage = some (MVal.num p) ∧ q = p / 1000)
    ∧ (∀ q, (amdBlock (AmdOutcome.card c) g).core_clock_mhz = MVal.num q →
        ∃ p, c.gfxClkFreq = some (MVal.num p) ∧ q = p / 1000000)
    ∧ (∀ q, (amdBlock (AmdOutcome.card c) g).memory_clock_mhz = MVal.num q →
        ∃ p, c.memClkFreq = some (MVal.num p) ∧ q = p / 1000000)
    ∧ (amdBlock (AmdOutcome.card c) g).fan_speed_percent = c.fanSpeedPercent.getD (MVal.str "N/A")
    ∧ (amdBlock (AmdOutcome.card c) g).vram_used_mb = c.vramUsed.getD (MVal.str "N/A") := by
  refine ⟨rfl, rfl, ?_, ?_, ?_, rfl, rfl⟩
  · intro q hq
    simp only [amdBlock] at hq
    cases hp : c.powerAverage with
    | none => simp [hp] at hq
    | some v =>
      cases v with
      | num p =>
        simp [hp] at hq
        exact ⟨p, rfl, hq.symm⟩
      | str s => simp [hp] at hq
  · intro q hq
    simp only [amdBlock] at hq
    cases hp : c.gfxClkFreq with
    | none => simp [hp] at hq
    | some v =>
      cases v with
      | num p =>
        simp [hp] at hq
        exact ⟨p, rfl, hq.symm⟩
      | str s => simp [hp] at hq
  · intro q hq
    simp only [amdBlock] at hq
    cases hp : c.memClkFreq with
    | none => simp [hp] at hq
    | some v =>
      cases v with
      | num p =>
        simp [hp] at hq
        exact ⟨p, rfl, hq.symm⟩
      | str s => simp [hp] at hq

/-- When init, the unguarded readings and the hasattr checks all succeed
and no guarded reading raises anything but NotSupported, a NotSupported
failure of one individually guarded reading marks only its own field
while every sibling still receives its own source's value. -/
theorem nvidiaBlock_guarded (nv : NvOracle) (t0 p0 bv : Int)
    (hI : nv.initHandle = Except.ok ())
    (f1 : nv.hasTempGpu = true) (f2 : nv.hasTempMem = true)
    (f3 : nv.hasClockGraphics = true) (f4 : nv.hasClockMem = true)
    (ht : nv.temp = Except.ok t0) (hp : nv.power = Except.ok p0)
    (hb : nv.memUsed = Except.ok bv)
    (g2 : nv.tempMem ≠ Except.error NvErr.other)
    (g3 : nv.clockGraphics ≠ Except.error NvErr.other)
    (g4 : nv.clockMem ≠ Except.error NvErr.other)
    (g5 : nv.fan ≠ Except.error NvErr.other) :
    (nvidiaBlock nv gpuInit).temp_celsius = MVal.num (t0 : ℚ)
    ∧ (nvidiaBlock nv gpuInit).power_draw_watts = MVal.num ((p0 : ℚ) / 1000)
    ∧ (nvidiaBlock nv gpuInit).vram_used_mb = MVal.num ((Int.fdiv bv 1048576 : Int) : ℚ)
    ∧ (nv.tempMem = Except.error NvErr.notSupported →
        (nvidiaBlock nv gpuInit).hotspot_temp_celsius = MVal.str "N/A (Not Supported)")
    ∧ (∀ v, nv.tempMem = Except.ok v →
        (nvidiaBlock nv gpuInit).hotspot_temp_celsius = MVal.num (v : ℚ))
    ∧ (nv.clockGraphics = Except.error NvErr.notSupported →
        (nvidiaBlock nv gpuInit).core_clock_mhz = MVal.str "N/A (Not Supported)")
    ∧ (∀ v, nv.clockGraphics = Except.ok v →
        (nvidiaBlock nv gpuInit).core_clock_mhz = MVal.num (v : ℚ))
    ∧ (nv.clockMem = Except.error NvErr.notSupported →
        (nvidiaBlock nv gpuInit).memory_clock_mhz = MVal.str "N/A (Not Supported)")
    ∧ (∀ v, nv.clockMem = Except.ok v →
        (nvidiaBlock nv gpuInit).memory_clock_mhz = MVal.num (v : ℚ))
    ∧ (nv.fan = Except.error NvErr.notSupported →
        (nvidiaBlock nv gpuInit).fan_speed_percent = MVal.str "N/A (Not Supported)")
    ∧ (∀ v, nv.fan = Except.ok v →
        (nvidiaBlock nv gpuInit).fan_speed_percent = MVal.num (v : ℚ)) := by
  have H2 : nv.tempMem = Except.error NvErr.notSupported ∨ ∃ v, nv.tempMem = Except.ok v := by
    cases h : nv.tempMem with
    | ok v => exact Or.inr ⟨v, rfl⟩
    | error e =>
      cases e with
      | notSupported => exact Or.inl rfl
      | other => exact absurd h g2
  have H3 : nv.clockGraphics = Except.error NvErr.notSupported ∨ ∃ v, nv.clockGraphics = Except.ok v := by
    cases h : nv.clockGraphics with
    | ok v => exact Or.inr ⟨v, rfl⟩
    | error e =>
      cases e with
      | notSupported => exact Or.inl rfl
      | other => exact absurd h g3
  have H4 : nv.clockMem = Except.error NvErr.notSupported ∨ ∃ v, nv.clockMem = Except.ok v := by
    cases h : nv.clockMem with
    | ok v => exact Or.inr ⟨v, rfl⟩
    | error e =>
      cases e with
      | notSupported => exact Or.inl rfl
      | other => exact absurd h g4
  have H5 : nv.fan = Except.error NvErr.notSupported ∨ ∃ v, nv.fan = Except.ok v := by
    cases h : nv.fan with
    | ok v => exact Or.inr ⟨v, rfl⟩
    | error e =>
      cases e with
      | notSupported => exact Or.inl rfl
      | other => exact absurd h g5
  rcases H2 with h2 | ⟨v2, h2⟩ <;> rcases H3 with h3 | ⟨v3, h3⟩ <;>
    rcases H4 with h4 | ⟨v4, h4⟩ <;> rcases H5 with h5 | ⟨v5, h5⟩ <;>
    simp [nvidiaBlock, nvStepTemp, nvStepHotspot, nvStepPower, nvStepClockGraphics,
      nvStepClockMem, nvStepFan, nvStepVram, hI, f1, f2, f3, f4, ht, hp, hb,
      h2, h3, h4, h5]

/-- Observable outcome of one capture whose unguarded psutil reads
succeed: the snapshot is complete, its non-GPU fields come from psutil,
its GPU placeholders stay markers, every numeric GPU field has a real
source, GPU-side failures are contained (with the individually guarded
NotSupported cases marking only their own field), and psutil failures
escape the function. -/
def C7Post (mon : SystemMonitorState) (nvmlA : Bool) (nv : NvOracle)
    (amd : AmdOutcome) (ps : PsOracle) (now : String) (vm : VMem) (u : ℚ)
    (tv : MVal) : Prop :=
  ∃ m, get_realtime_metrics mon nvmlA nv amd ps now = Except.ok m
    ∧ m.timestamp = now
    ∧ m.cpu.usage_percent = MVal.num u
    ∧ m.cpu.temperature_celsius = tv
    ∧ m.ram.total_gb = round2 (vm.total / 1073741824)
    ∧ m.ram.used_gb = round2 (vm.used / 1073741824)
    ∧ m.ram.usage_percent = vm.percent
    ∧ m.gpu.hash_rate_mhps = MVal.str "N/A"
    ∧ m.gpu.efficiency_jpmh = MVal.str "N/A"
    ∧ (mon.gpu_brand = "NVIDIA" → nvmlA = true →
        ((∀ q, m.gpu.temp_celsius = MVal.num q → tempProv nv q)
        ∧ (∀ q, m.gpu.hotspot_temp_celsius = MVal.num q → hotProv nv q)
        ∧ (∀ q, m.gpu.power_draw_watts = MVal.num q → powProv nv q)
        ∧ (∀ q, m.gpu.core_clock_mhz = MVal.num q → coreProv nv q)
        ∧ (∀ q, m.gpu.memory_clock_mhz = MVal.num q → memProv nv q)
        ∧ (∀ q, m.gpu.fan_speed_percent = MVal.num q → fanProv nv q)
        ∧ (∀ q, m.gpu.vram_used_mb = MVal.num q → vramProv nv q)))
    ∧ (mon.gpu_brand = "NVIDIA" → nvmlA = true →
        ∀ e, nv.initHandle = Except.error e → m.gpu = gpuInit)
    ∧ (mon.gpu_brand = "NVIDIA" → nvmlA = true →
        nv.initHandle = Except.ok () → nv.hasTempGpu = true →
        ∀ e, nv.temp = Except.error e → m.gpu = gpuInit)
    ∧ (mon.gpu_brand = "NVIDIA" → nvmlA = true →
        ∀ t0 p0 bv, nv.initHandle = Except.ok () →
        nv.hasTempGpu = true → nv.hasTempMem = true →
        nv.hasClockGraphics = true → nv.hasClockMem = true →
        nv.temp = Except.ok t0 → nv.power = Except.ok p0 →
        nv.memUsed = Except.ok bv →
        nv.tempMem ≠ Except.error NvErr.other →
        nv.clockGraphics ≠ Except.error NvErr.other →
        nv.clockMem ≠ Except.error NvErr.other →
        nv.fan ≠ Except.error NvErr.other →
        (m.gpu.temp_celsius = MVal.num (t0 : ℚ)
        ∧ m.gpu.power_draw_watts = MVal.num ((p0 : ℚ) / 1000)
        ∧ m.gpu.vram_used_mb = MVal.num ((Int.fdiv bv 1048576 : Int) : ℚ)
        ∧ (nv.tempMem = Except.error NvErr.notSupported →
            m.gpu.hotspot_temp_celsius = MVal.str "N/A (Not Supported)")
        ∧ (∀ v, nv.tempMem = Except.ok v →
            m.gpu.hotspot_temp_celsius = MVal.num (v : ℚ))
        ∧ (nv.clockGraphics = Except.error NvErr.notSupported →
            m.gpu.core_clock_mhz = MVal.str "N/A (Not Supported)")
        ∧ (∀ v, nv.clockGraphics = Except.ok v →
            m.gpu.core_clock_mhz = MVal.num (v : ℚ))
        ∧ (nv.clockMem = Except.error NvErr.notSupported →
            m.gpu.memory_clock_mhz = MVal.str "N/A (Not Supported)")
        ∧ (∀ v, nv.clockMem = Except.ok v →
            m.gpu.memory_clock_mhz = MVal.num (v : ℚ))
        ∧ (nv.fan = Except.error NvErr.notSupported →
            m.gpu.fan_speed_percent = MVal.str "N/A (Not Supported)")
        ∧ (∀ v, nv.fan = Except.ok v →
            m.gpu.fan_speed_percent = MVal.num (v : ℚ))))
    ∧ (mon.gpu_brand = "AMD" → mon.os = "Linux" →
        (((amd = AmdOutcome.raised ∨ amd = AmdOutcome.nonzeroReturn
          ∨ amd = AmdOutcome.badJson ∨ amd = AmdOutcome.noCards) → m.gpu = gpuInit)
        ∧ (∀ c, amd = AmdOutcome.card c →
            (m.gpu.temp_celsius = c.tempEdge.getD (MVal.str "N/A")
            ∧ m.gpu.hotspot_temp_celsius = c.tempJunction.getD (MVal.str "N/A")
            ∧ (∀ q, m.gpu.power_draw_watts = MVal.num q →
                ∃ p, c.powerAverage = some (MVal.num p) ∧ q = p / 1000)
            ∧ (∀ q, m.gpu.core_clock_mhz = MVal.num q →
                ∃ p, c.gfxClkFreq = some (MVal.num p) ∧ q = p / 1000000)
            ∧ (∀ q, m.gpu.memory_clock_mhz = MVal.num q →
                ∃ p, c.memClkFreq = some (MVal.num p) ∧ q = p / 1000000)
            ∧ m.gpu.fan_speed_percent = c.fanSpeedPercent.getD (MVal.str "N/A")
            ∧ m.gpu.vram_used_mb = c.vramUsed.getD (MVal.str "N/A")))))
    ∧ (¬(mon.gpu_brand = "NVIDIA" ∧ nvmlA = true) →
        ¬(mon.gpu_brand = "AMD" ∧ mon.os = "Linux") → m.gpu = gpuInit)
    ∧ (∀ (ps2 : PsOracle) e, ps2.virtualMemory = Except.error e →
        get_realtime_metrics mon nvmlA nv amd ps2 now = Except.error e)
    ∧ (∀ (ps2 : PsOracle) vm2 e, ps2.virtualMemory = Except.ok vm2 →
        ps2.cpuPercent = Except.error e →
        get_realtime_metrics mon nvmlA nv amd ps2 now = Except.error e)

/-- C7 (amended): when the unguarded psutil readings succeed, capture
returns a complete snapshot; GPU sub-reading failures never escape —
each GPU field is either its own source's value or a marker string,
never a numeric default; a NotSupported failure of an individually
guarded reading marks only its own field while the siblings are still
populated from their sources; any other GPU failure leaves the remaining
GPU fields at their markers; but failures of the unguarded CPU and RAM
readings propagate out of get_realtime_metrics. -/
theorem capture_contains_gpu_failures_but_psutil_raises_escape
    (mon : SystemMonitorState) (nvmlA : Bool) (nv : NvOracle)
    (amd : AmdOutcome) (ps : PsOracle) (now : String) (vm : VMem) (u : ℚ)
    (tv : MVal)
    (hvm : ps.virtualMemory = Except.ok vm)
    (hcpu : ps.cpuPercent = Except.ok u)
    (htemp : cpu_temperature_read ps = Except.ok tv) :
    C7Post mon nvmlA nv amd ps now vm u tv := by
  unfold C7Post
  have hM : get_realtime_metrics mon nvmlA nv amd ps now = Except.ok
      { timestamp := now, gpu := (if mon.gpu_brand = "NVIDIA" && nvmlA then nvidiaBlock nv gpuInit else if mon.gpu_brand = "AMD" && mon.os = "Linux" then amdBlock amd gpuInit else gpuInit), cpu := { temperature_celsius := tv, usage_percent := MVal.num u }, ram := { total_gb := round2 (vm.total / 1073741824), used_gb := round2 (vm.used / 1073741824), usage_percent := vm.percent } } := by
    unfold get_realtime_metrics
    rw [hvm, hcpu, htemp]
  refine ⟨_, hM, rfl, rfl, rfl, rfl, rfl, rfl, ?_, ?_, ?_, ?_, ?_, ?_, ?_, ?_, ?_, ?_⟩
  · show (if mon.gpu_brand = "NVIDIA" && nvmlA then nvidiaBlock nv gpuInit else if mon.gpu_brand = "AMD" && mon.os = "Linux" then amdBlock amd gpuInit else gpuInit).hash_rate_mhps = MVal.str "N/A"
    split
    · exact (nvidiaBlock_spec nv gpuInit).2.2.2.2.2.2.2.1
    · split
      · exact (amdBlock_placeholders amd gpuInit).1
      · rfl
  · show (if mon.gpu_brand = "NVIDIA" && nvmlA then nvidiaBlock nv gpuInit else if mon.gpu_brand = "AMD" && mon.os = "Linux" then amdBlock amd gpuInit else gpuInit).efficiency_jpmh = MVal.str "N/A"
    split
    · exact (nvidiaBlock_spec nv gpuInit).2.2.2.2.2.2.2.2
    · split
      · exact (amdBlock_placeholders amd gpuInit).2
      · rfl
  · intro hB hA
    simp only [hB, hA]
    simp only [decide_True, Bool.and_self, if_true]
    obtain ⟨s1, s2, s3, s4, s5, s6, s7, _, _⟩ := nvidiaBlock_spec nv gpuInit
    exact ⟨fun q hq => (s1 q hq).resolve_right (fun hc => MVal.noConfusion hc),
      fun q hq => (s2 q hq).resolve_right (fun hc => MVal.noConfusion hc),
      fun q hq => (s3 q hq).resolve_right (fun hc => MVal.noConfusion hc),
      fun q hq => (s4 q hq).resolve_right (fun hc => MVal.noConfusion hc),
      fun q hq => (s5 q hq).resolve_right (fun hc => MVal.noConfusion hc),
      fun q hq => (s6 q hq).resolve_right (fun hc => MVal.noConfusion hc),
      fun q hq => (s7 q hq).resolve_right (fun hc => MVal.noConfusion hc)⟩
  · intro hB hA e hIe
    simp only [hB, hA]
    simp only [decide_True, Bool.and_self, if_true]
    simp [nvidiaBlock, hIe]
  · intro hB hA hIok hf1 e hte
    simp only [hB, hA]
    simp only [decide_True, Bool.and_self, if_true]
    simp [nvidiaBlock, hIok, nvStepTemp, hf1, hte]
  · intro hB hA t0 p0 bv hI f1 f2 f3 f4 ht hp hb g2 g3 g4 g5
    simp only [hB, hA]
    simp only [decide_True, Bool.and_self, if_true]
    exact nvidiaBlock_guarded nv t0 p0 bv hI f1 f2 f3 f4 ht hp hb g2 g3 g4 g5
  · intro hB hL
    have hg : (if mon.gpu_brand = "NVIDIA" && nvmlA then nvidiaBlock nv gpuInit
        else if mon.gpu_brand = "AMD" && mon.os = "Linux" then amdBlock amd gpuInit
        else gpuInit) = amdBlock amd gpuInit := by
      rw [hB, hL]
      simp
    constructor
    · intro hfail
      simp only [hg]
      rcases hfail with h | h | h | h <;> rw [h] <;> rfl
    · intro c hc
      rw [hg, hc]
      exact amdBlock_card c gpuInit
  · intro h1 h2
    split
    · rename_i hcond
      simp only [Bool.and_eq_true, decide_eq_true_eq] at hcond
      exact absurd hcond h1
    · split
      · rename_i hcond
        simp only [Bool.and_eq_true, decide_eq_true_eq] at hcond
        exact absurd hcond h2
      · rfl
  · intro ps2 e hvm2
    unfold get_realtime_metrics
    rw [hvm2]
  · intro ps2 vm2 e h1 h2
    unfold get_realtime_metrics
    rw [h1, h2]

/-- An NVML oracle where every reading succeeds. -/
def nvAllOk : NvOracle :=
  { initHandle := Except.ok (), hasTempGpu := true, temp := Except.ok 65,
    hasTempMem := true, tempMem := Except.ok 75, power := Except.ok 200000,
    hasClockGraphics := true, clockGraphics := Except.ok 1800,
    hasClockMem := true, clockMem := Except.ok 7000, fan := Except.ok 60,
    memUsed := Except.ok 8589934592 }

/-- A psutil oracle whose cpu_percent reading raises while every other
reading (including every hardware GPU reading) is fine. -/
def psCpuFails : PsOracle :=
  { virtualMemory := Except.ok { total := 17179869184, used := 8589934592, percent := 50 },
    cpuPercent := Except.error (PsErr.exc "cpu read failed"),
    hasSensors := false, sensorsTemps := Except.ok [] }

/-- Counterexample to C7 as stated: a single failed sub-reading — the
unguarded psutil cpu_percent call — makes the exception escape
get_realtime_metrics instead of being recorded as an "unavailable"
marker; no snapshot is returned at all. -/
theorem capture_cpu_failure_escapes_counterexample :
    get_realtime_metrics (mkSystemMonitor "NVIDIA" "Linux") true nvAllOk
        AmdOutcome.raised psCpuFails "2024-01-01T00:00:00"
      = Except.error (PsErr.exc "cpu read failed") := rfl

/-- A psutil oracle with every reading fine (no sensors attribute). -/
def psAllOk : PsOracle :=
  { virtualMemory := Except.ok { total := 17179869184, used := 8589934592, percent := 50 },
    cpuPercent := Except.ok 12, hasSensors := false, sensorsTemps := Except.ok [] }

/-- Concrete instance of the amended C7 on an all-successful capture. -/
theorem capture_contains_gpu_failures_witness :
    C7Post (mkSystemMonitor "NVIDIA" "Linux") true nvAllOk AmdOutcome.raised
      psAllOk "2024-01-01T00:00:00"
      { total := 17179869184, used := 8589934592, percent := 50 } 12
      (MVal.str "N/A") :=
  capture_contains_gpu_failures_but_psutil_raises_escape _ _ _ _ _ _ _ _ _
    rfl rfl rfl

/-! ### LLMInterface: recommendation generation (src/llm_interaction.py) -/

/-- Outcome of the ollama.generate call: a response dictionary whose
optional response key holds the generated text, or a raised exception
rendered by str(e). -/
inductive GenResult where
  | ok (response : Option String)
  | exc (e : String)
deriving DecidableEq

/-- Whether p is a prefix of l. -/
def isPrefixAt : List Char → List Char → Bool
  | [], _ => true
  | _ :: _, [] => false
  | a :: p, b :: l => a = b && isPrefixAt p l

/-- Whether p occurs as a contiguous substring of l (Python `p in s`). -/
def hasSubstr : List Char → List Char → Bool
  | p, [] => isPrefixAt p []
  | p, b :: t => isPrefixAt p (b :: t) || hasSubstr p t

/-- Python `needle in hay` on strings. -/
def strContains (hay needle : String) : Bool :=
  hasSubstr needle.data hay.data

/-- LLMInterface.get_overclock_recommendations: the prompt assembled from
the summary, algorithm and goal is consumed by the external model call
(the GenResult oracle); a missing response key yields the fixed fallback
text; any exception is caught and turned into a diagnostic message that
starts with the error details and ends with model-specific or
server-specific advice. -/
def get_overclock_recommendations (system_summary current_mining_algorithm user_goal : String)
    (llm_model : String) (gen : GenResult) : String :=
  match gen with
  | GenResult.ok (some r) => r
  | GenResult.ok none => "LLM did not return a valid response."
  | GenResult.exc e =>
    let error_message := "Error: Could not get recommendations from LLM. Details: " ++ e ++ "\n"
    if strContains e "status code: 404" && strContains e llm_model then
      error_message ++ ("Please ensure the model \x27" ++ llm_model ++ "\x27 is downloaded and available in your Ollama installation. Run \x60ollama pull " ++ llm_model ++ "\x60 in your terminal.")
    else
      error_message ++ "Please ensure your Ollama server is running and accessible (e.g., at http://localhost:11434)."

/-- C8: get_overclock_recommendations returns a string for every outcome
of the external call — the generated text on success, a fixed fallback
when the response key is missing, and, for every raised exception, a
diagnostic message carrying the exception details in place of the
recommendation text; no outcome propagates an error to the caller. -/
theorem get_overclock_recommendations_always_returns_text
    (system_summary current_mining_algorithm user_goal llm_model : String) :
    (∀ r, get_overclock_recommendations system_summary current_mining_algorithm
        user_goal llm_model (GenResult.ok (some r)) = r)
    ∧ get_overclock_recommendations system_summary current_mining_algorithm
        user_goal llm_model (GenResult.ok none)
        = "LLM did not return a valid response."
    ∧ (∀ e, ∃ advice,
        get_overclock_recommendations system_summary current_mining_algorithm
          user_goal llm_model (GenResult.exc e)
        = "Error: Could not get recommendations from LLM. Details: " ++ e ++ "\n" ++ advice) := by
  refine ⟨fun r => rfl, rfl, fun e => ?_⟩
  unfold get_overclock_recommendations
  cases hb : (strContains e "status code: 404" && strContains e llm_model) with
  | true =>
    refine ⟨"Please ensure the model \x27" ++ llm_model ++ "\x27 is downloaded and available in your Ollama installation. Run \x60ollama pull " ++ llm_model ++ "\x60 in your terminal.", ?_⟩
    simp only [hb, if_true]
  | false =>
    refine ⟨"Please ensure your Ollama server is running and accessible (e.g., at http://localhost:11434).", ?_⟩
    simp only [hb, Bool.false_eq_true, if_false]
